import Mathlib

/-!
Verification development for the BenchSim simulation subsystem
(`benchsim/simulation_manager.py`): project discovery, compile-plan
construction, the run pipeline, viewer-config generation and viewer
lifecycle, modelled as pure Lean functions over an explicit filesystem
and subprocess environment.
-/

namespace BenchSim

/-! ## String primitives

Python string operations are modelled by structural recursion over
character lists (`String.data`), so that every definition evaluates
inside the kernel on concrete inputs. -/

/-- Lexicographic-by-code-point `≤` on character lists, python string
comparison semantics. -/
def charListLe : List Char → List Char → Bool
  | [], _ => true
  | _ :: _, [] => false
  | a :: as, b :: bs => if a = b then charListLe as bs else decide (a < b)

/-- Python `a <= b` on strings. -/
def strLe (a b : String) : Bool := charListLe a.data b.data

/-- Prefix test on character lists. -/
def listIsPrefixOf : List Char → List Char → Bool
  | [], _ => true
  | _ :: _, [] => false
  | a :: as, b :: bs => a = b && listIsPrefixOf as bs

/-- Python `s.startswith(pre)`. -/
def strStartsWith (s pre : String) : Bool := listIsPrefixOf pre.data s.data

/-- Python `s.endswith(suf)`. -/
def strEndsWith (s suf : String) : Bool := listIsPrefixOf suf.data.reverse s.data.reverse

/-- The character set stripped by python `str.strip()` (ASCII range). -/
def isPyStrip (c : Char) : Bool :=
  c == ' ' || c == '\t' || c == '\n' || c == '\r' || c == '\x0b' || c == '\x0c'

/-- Python `s.strip()`. -/
def strTrim (s : String) : String :=
  String.mk (((s.data.dropWhile isPyStrip).reverse.dropWhile isPyStrip).reverse)

/-- Occurrence test for `sub in s` on character lists. -/
def listOccurs (sub : List Char) : List Char → Bool
  | [] => sub.isEmpty
  | c :: cs => listIsPrefixOf sub (c :: cs) || listOccurs sub cs

/-- Python substring containment `sub in s`. -/
def strContains (s sub : String) : Bool := listOccurs sub.data s.data

/-- Fuelled worker for `strReplace`; the fuel is the input length,
enough because every step consumes at least one character. -/
def replaceFuel (pat rep : List Char) : Nat → List Char → List Char
  | _, [] => []
  | 0, s => s
  | fuel + 1, c :: cs =>
    if listIsPrefixOf pat (c :: cs) then
      rep ++ replaceFuel pat rep fuel ((c :: cs).drop pat.length)
    else c :: replaceFuel pat rep fuel cs

/-- Python `s.replace(pat, rep)` for a nonempty pattern (the only way
the translation templates use it): leftmost non-overlapping matches. -/
def strReplace (s pat rep : String) : String :=
  if pat.data.isEmpty then s
  else String.mk (replaceFuel pat.data rep.data s.data.length s.data)

/-- Python `s.lower()` on the ASCII identifiers handled here. -/
def strToLower (s : String) : String := String.mk (s.data.map Char.toLower)

/-! ## Path helpers (mirroring `pathlib` / `os.path` use in the source) -/

/-- Final component of a path (after the last slash), as `Path(p).name`
and `os.path.basename` for the canonical absolute paths the code
manipulates. -/
def pathName (p : String) : String :=
  String.mk ((p.data.reverse.takeWhile fun c => c ≠ '/').reverse)

/-- Directory part of a path, as `os.path.dirname` / `Path(p).parent`
for slash-separated paths without a trailing slash. -/
def pathDirname (p : String) : String :=
  if p.data.contains '/' then
    let d := ((p.data.reverse.dropWhile fun c => c ≠ '/').drop 1).reverse
    if d.isEmpty then "/" else String.mk d
  else ""

/-- Join a directory and a child name, as `base / name` on `Path`
objects and `os.path.join(base, name)` for a relative `name`. -/
def joinPath (base name : String) : String :=
  if base == "" then name
  else if strEndsWith base "/" then base ++ name
  else base ++ "/" ++ name

/-- True when `child` can be written as `dir / name` for a single
nonempty component `name` (a direct directory entry). -/
def isDirectChildOf (child dir : String) : Bool :=
  strStartsWith child (dir ++ "/") &&
    !(child.data.drop (dir.data.length + 1)).isEmpty &&
    !(child.data.drop (dir.data.length + 1)).contains '/'

/-- True when `p` lies strictly below directory `dir` (any depth). -/
def isDescendantOf (p dir : String) : Bool :=
  strStartsWith p (dir ++ "/") && !(p.data.drop (dir.data.length + 1)).isEmpty

/-- True when `Path(p).relative_to(dir)` would succeed: `p` equals
`dir` or lies below it. -/
def isRelativeTo (p dir : String) : Bool :=
  p == dir || strStartsWith p (dir ++ "/")

/-- Python truthiness-based `a or b` for strings. -/
def pyOr (a b : String) : String := if a == "" then b else a

/-! ## Filesystem model

A filesystem is a finite list of entries, each sitting at a textual
path in the directory tree, together with a canonicalization function
`resolve` (the effect of `Path(...).resolve()` / symlink and relative
segment elimination). Two textual paths aliasing the same physical
file have the same `resolve` image. -/

structure FSEntry where
  path : String
  isDir : Bool
  isFile : Bool
  mtime : Int
  content : String
deriving Repr

structure FS where
  entries : List FSEntry
  resolve : String → String

/-- Well-formedness of the canonicalization function: resolving is
idempotent and canonical paths are nonempty. -/
structure FS.WF (fs : FS) : Prop where
  resolve_idem : ∀ p, fs.resolve (fs.resolve p) = fs.resolve p
  resolve_ne_empty : ∀ p, fs.resolve p ≠ ""

/-- True when `p` refers to a directory (`os.path.isdir` / `Path.is_dir`). -/
def FS.isDir (fs : FS) (p : String) : Bool :=
  fs.entries.any fun e => fs.resolve e.path == fs.resolve p && e.isDir

/-- True when `p` refers to a regular file (`os.path.isfile` / `Path.is_file`). -/
def FS.isFile (fs : FS) (p : String) : Bool :=
  fs.entries.any fun e => fs.resolve e.path == fs.resolve p && e.isFile

/-- True when `p` exists at all (`os.path.exists`). -/
def FS.pathExists (fs : FS) (p : String) : Bool :=
  fs.entries.any fun e => fs.resolve e.path == fs.resolve p

/-- Non-recursive glob for a `*<suffix>` pattern in directory `dir`,
as `Path(dir).glob("*" + suffix)`: textual paths of direct entries
whose name ends with `suffix`. -/
def FS.glob (fs : FS) (dir suffix : String) : List String :=
  (fs.entries.filter fun e =>
      isDirectChildOf e.path dir && strEndsWith (pathName e.path) suffix).map (·.path)

/-- Recursive glob for a `*<suffix>` pattern, as `Path(dir).rglob`. -/
def FS.rglob (fs : FS) (dir suffix : String) : List String :=
  (fs.entries.filter fun e =>
      isDescendantOf e.path dir && strEndsWith (pathName e.path) suffix).map (·.path)

/-- Subdirectories directly under `dir`, as
`[d for d in Path(dir).iterdir() if d.is_dir()]`. -/
def FS.childDirs (fs : FS) (dir : String) : List String :=
  (fs.entries.filter fun e => isDirectChildOf e.path dir && e.isDir).map (·.path)

/-- Modification time of the entry at `p` (`Path(p).stat().st_mtime`). -/
def FS.mtimeOf (fs : FS) (p : String) : Int :=
  ((fs.entries.find? fun e => fs.resolve e.path == fs.resolve p).map (·.mtime)).getD 0

/-- Text content of the file at `p` (`open(p).read()`). -/
def FS.readFile (fs : FS) (p : String) : String :=
  ((fs.entries.find? fun e => fs.resolve e.path == fs.resolve p).map (·.content)).getD ""

/-! ## Messages (`benchsim/messages.py`) -/

inductive MessageType where
  | error
  | success
  | log
  | warning
deriving DecidableEq, Repr

/-- String value of a message type, as the `Enum` values in the source. -/
def MessageType.value : MessageType → String
  | .error => "error"
  | .success => "success"
  | .log => "log"
  | .warning => "warning"

/-- The message dictionary produced by `create_message`: type string,
text, extra UI actions, and auxiliary data (a string-keyed dict). -/
structure Message where
  type : String
  message : String
  extras : List String
  data : List (String × String)
deriving DecidableEq, Repr

/-- Mirror of `create_message(message_type, text, extras, data)`. -/
def create_message (t : MessageType) (text : String) (extras : List String)
    (data : List (String × String)) : Message :=
  { type := t.value, message := text, extras := extras, data := data }

/-- Mirror of `messages.is_error`. -/
def is_error (m : Message) : Bool := m.type == "error"

/-! ## Translations (`benchsim/i18n.py`), restricted to the keys the
simulation manager uses. -/

/-- English translation table entries used by the simulation manager. -/
def translation_en (key : String) : Option String :=
  if key == "msg_folder_invalid" then some "Project folder is not set or does not exist."
  else if key == "msg_iverilog_invalid" then some "Icarus Verilog path is invalid."
  else if key == "msg_gtkwave_invalid" then some "GTKWave path is invalid."
  else if key == "msg_no_sources" then some "No .v source files found to compile."
  else if key == "msg_no_compile_files" then
    some "No source files available to compile in selected project."
  else if key == "msg_multiple_icestudio" then
    some ("Multiple subprojects detected in ice-build. " ++
      "Open a single project folder, for example: ice-build/<project_name>/")
  else if key == "msg_compile_error" then
    some "<b>Compilation error:</b><br/><pre>\x7bstderr\x7d</pre>"
  else if key == "msg_sim_error" then
    some "<b>Simulation error:</b><br/><pre>\x7bstderr\x7d</pre>"
  else if key == "msg_no_vcd" then some "Simulation finished but no .vcd file was found."
  else if key == "msg_gtkw_config_error" then some "Could not generate GTKWave configuration."
  else if key == "msg_compiling" then
    some "<b>Compiling...</b><br/>files=\x7bcount\x7d mode=\x7bmode\x7d<br/>"
  else if key == "msg_running" then some "<b>Running simulation...</b><br/>"
  else if key == "msg_opening_gtkw" then some "<b>Opening GTKWave...</b><br/>\x7bcmd\x7d<br/>"
  else if key == "msg_sim_updated" then some "Simulation updated"
  else if key == "msg_gtkw_restarting" then
    some "<b>Reloading GTKWave with updated simulation...</b><br/>"
  else if key == "msg_gtkw_closing" then some "<b>Closing GTKWave...</b><br/>"
  else if key == "msg_gtkw_closed" then some "<b>GTKWave closed.</b><br/>"
  else if key == "msg_gtkw_close_error" then
    some "<pre style='color:#E57373'>Error closing GTKWave: \x7berror\x7d</pre>"
  else none

/-- Spanish translation table entries used by the simulation manager. -/
def translation_es (key : String) : Option String :=
  if key == "msg_folder_invalid" then
    some "La carpeta de proyecto no está definida o no existe."
  else if key == "msg_iverilog_invalid" then some "La ruta de Icarus Verilog no es válida."
  else if key == "msg_gtkwave_invalid" then some "La ruta de GTKWave no es válida."
  else if key == "msg_no_sources" then some "No se encontraron archivos .v para compilar."
  else if key == "msg_no_compile_files" then
    some "No hay archivos fuente para compilar en el proyecto seleccionado."
  else if key == "msg_multiple_icestudio" then
    some ("Se detectaron varios subproyectos en ice-build. " ++
      "Abre una sola carpeta de proyecto, por ejemplo: ice-build/<nombre_proyecto>/")
  else if key == "msg_compile_error" then
    some "<b>Error en la compilación:</b><br/><pre>\x7bstderr\x7d</pre>"
  else if key == "msg_sim_error" then
    some "<b>Error en la simulación:</b><br/><pre>\x7bstderr\x7d</pre>"
  else if key == "msg_no_vcd" then
    some "La simulación terminó, pero no se encontró archivo .vcd."
  else if key == "msg_gtkw_config_error" then
    some "No se pudo generar la configuración de GTKWave."
  else if key == "msg_compiling" then
    some "<b>Compilando...</b><br/>archivos=\x7bcount\x7d modo=\x7bmode\x7d<br/>"
  else if key == "msg_running" then some "<b>Ejecutando simulación...</b><br/>"
  else if key == "msg_opening_gtkw" then some "<b>Abriendo GTKWave...</b><br/>\x7bcmd\x7d<br/>"
  else if key == "msg_sim_updated" then some "Simulación actualizada"
  else if key == "msg_gtkw_restarting" then
    some "<b>Recargando GTKWave con la simulación actualizada...</b><br/>"
  else if key == "msg_gtkw_closing" then some "<b>Cerrando GTKWave...</b><br/>"
  else if key == "msg_gtkw_closed" then some "<b>GTKWave cerrado.</b><br/>"
  else if key == "msg_gtkw_close_error" then
    some "<pre style='color:#E57373'>Error al cerrar GTKWave: \x7berror\x7d</pre>"
  else none

/-- Mirror of `i18n.normalize_lang`. -/
def normalize_lang (lang : String) : String :=
  if lang == "en" || lang == "es" then lang else "en"

/-- Mirror of `i18n.tr(key, lang, **kwargs)`: look the key up in the
selected language with fallback to English and then to the key itself,
and substitute the keyword arguments into the template. -/
def tr (key lang : String) (kwargs : List (String × String)) : String :=
  let lang1 := normalize_lang lang
  let text0 := if lang1 == "es" then translation_es key else translation_en key
  let text1 := match text0 with
    | some t => t
    | none => (translation_en key).getD key
  kwargs.foldl (fun t kv => strReplace t ("\x7b" ++ kv.1 ++ "\x7d") kv.2) text1

/-- An error message carrying the `popup` extra, the shape every
failure path of `build_compile_plan` produces. -/
def popupError (key lang : String) : Message :=
  create_message .error (tr key lang []) ["popup"] []

/-! ## Discovery (`SimulationManager.discover_project_files` and helpers) -/

/-- Python `sorted` on a list of strings: the stable ascending sort,
which is a function uniquely determined by those two properties. -/
def sortStrings (l : List String) : List String :=
  l.insertionSort fun a b => strLe a b = true

/-- Mirror of `SimulationManager._sorted_unique_paths(paths)`:
`sorted(set(str(Path(path).resolve()) for path in paths if path))`. -/
def sorted_unique_paths (fs : FS) (paths : List String) : List String :=
  sortStrings ((paths.filter fun p => p ≠ "").map fs.resolve).dedup

/-- The constant `SimulationManager.ICE_BUILD_DIR`. -/
def ICE_BUILD_DIR : String := "ice-build"

/-- Mirror of `SimulationManager._guess_icestudio_scope(base, selected_tb)`. -/
def guess_icestudio_scope (fs : FS) (base : String) (selected_tb : Option String) : String :=
  let ice_build := joinPath base ICE_BUILD_DIR
  if ¬ fs.isDir ice_build then base
  else
    let viaTb : Option String :=
      match selected_tb with
      | some tb =>
        if tb ≠ "" then
          let tb_path := fs.resolve tb
          if isRelativeTo tb_path (fs.resolve ice_build) then some (pathDirname tb_path)
          else none
        else none
      | none => none
    match viaTb with
    | some d => d
    | none =>
      match fs.childDirs ice_build with
      | [d] => d
      | _ =>
        if fs.isFile (joinPath ice_build "main.v") then ice_build else base

/-- The record returned by `discover_project_files`. -/
structure Discovery where
  effective_mode : String
  tb_files : List String
  source_files : List String
  preferred_tb : Option String
deriving Repr

/-- The mode-resolution step of `discover_project_files`:
`effective_mode = mode or "auto"`, with `auto` resolved to `icestudio`
when the build subdirectory exists, else `generic`. -/
def discover_effective_mode (fs : FS) (base mode : String) : String :=
  let effective_mode0 := pyOr mode "auto"
  if effective_mode0 == "auto" then
    if fs.isDir (joinPath base ICE_BUILD_DIR) then "icestudio" else "generic"
  else effective_mode0

/-- The sorted resolved testbench candidate list of
`discover_project_files` (`tb_files` before dedup). -/
def discover_tb_full (fs : FS) (base eff : String) : List String :=
  if eff == "icestudio" then
    sortStrings ((fs.glob base "_tb.v" ++
      (if fs.isDir (joinPath base ICE_BUILD_DIR) then
        fs.rglob (joinPath base ICE_BUILD_DIR) "_tb.v" else [])).map fs.resolve)
  else
    sortStrings ((fs.glob base "_tb.v").map fs.resolve)

/-- The source candidate list of `discover_project_files`. -/
def discover_source_candidates (fs : FS) (base eff : String) : List String :=
  if eff == "icestudio" then
    fs.glob base ".v" ++
      (if fs.isDir (joinPath base ICE_BUILD_DIR) then
        fs.rglob (joinPath base ICE_BUILD_DIR) ".v" else [])
  else
    fs.glob base ".v"

/-- Mirror of `SimulationManager.discover_project_files(folder, mode)`. -/
def discover_project_files (fs : FS) (folder : String) (mode : String) : Discovery :=
  let base := fs.resolve folder
  let effective_mode := discover_effective_mode fs base mode
  let tb_files := discover_tb_full fs base effective_mode
  let source_files := (discover_source_candidates fs base effective_mode).map fs.resolve
  let main_tb := fs.resolve (joinPath base "main_tb.v")
  let preferred_tb :=
    if main_tb ∈ tb_files then some main_tb
    else tb_files.head?
  { effective_mode := effective_mode
    tb_files := sorted_unique_paths fs tb_files
    source_files := sorted_unique_paths fs source_files
    preferred_tb := preferred_tb }

/-! ## Compile plan (`SimulationManager.build_compile_plan`) -/

/-- Persisted configuration values read through `SettingsManager.get_config`. -/
structure Config where
  language : String
  verilog_folder : String
  project_mode : String
  iverilog_path : String
  gtkwave_path : String

/-- The plan dictionary built by `build_compile_plan`. -/
structure CompilePlan where
  folder : String
  mode : String
  selected_tb : Option String
  compile_files : List String
  iverilog : String
  gtkwave : String
deriving DecidableEq, Repr

/-- The `(success, messages, plan)` triple returned by `build_compile_plan`. -/
structure PlanResult where
  success : Bool
  messages : List Message
  plan : Option CompilePlan
deriving DecidableEq, Repr

/-- The effective folder argument:
`folder = (folder or config.get("verilog_folder", "")).strip()`. -/
def effective_folder (config : Config) (folder0 : Option String) : String :=
  strTrim (pyOr (folder0.getD "") config.verilog_folder)

/-- The effective mode argument:
`mode = (mode or config.get("project_mode", "auto")).strip() or "auto"`. -/
def effective_mode_arg (config : Config) (mode0 : Option String) : String :=
  pyOr (strTrim (pyOr (mode0.getD "") config.project_mode)) "auto"

/-- Mirror of `selected_tb = tb_file if tb_file in tb_files else
discovery["preferred_tb"]`. -/
def resolve_selected_tb (tb_file : Option String) (d : Discovery) : Option String :=
  match tb_file with
  | some t => if t ∈ d.tb_files then some t else d.preferred_tb
  | none => d.preferred_tb

/-- Mirror of the icestudio scope-narrowing source collection in
`build_compile_plan` (lines 289-295): the recursively collected
non-testbench sources under the narrowed scope directory when that
collection is non-empty, otherwise the unscoped `source_files`. -/
def icestudio_effective_sources (fs : FS) (base : String) (selected_tb : Option String)
    (source_files : List String) : List String :=
  let scope_dir := guess_icestudio_scope fs base selected_tb
  let scope_sources :=
    ((fs.rglob scope_dir ".v").filter fun p => ¬ strEndsWith (pathName p) "_tb.v").map fs.resolve
  if scope_sources.isEmpty then source_files
  else sorted_unique_paths fs scope_sources

/-- Mirror of the final plan assembly of `build_compile_plan`
(lines 297-321): filter out testbenches, append the selected
testbench, sort and deduplicate, and fail when empty. -/
def finalize_plan (fs : FS) (lang folder eff_mode : String) (selected_tb : Option String)
    (source_files : List String) (iverilog gtkwave : String) : PlanResult :=
  let source_no_tb := source_files.filter fun src => ¬ strEndsWith (pathName src) "_tb.v"
  let compile_files := sorted_unique_paths fs (source_no_tb ++ selected_tb.toList)
  if compile_files.isEmpty then
    ⟨false, [popupError "msg_no_compile_files" lang], none⟩
  else
    ⟨true, [],
      some { folder := folder, mode := eff_mode, selected_tb := selected_tb,
             compile_files := compile_files, iverilog := iverilog, gtkwave := gtkwave }⟩

/-- Mirror of `project_dirs = [d for d in ice_build.iterdir() if
d.is_dir()] if ice_build.is_dir() else []`. -/
def ice_project_dirs (fs : FS) (ice_build : String) : List String :=
  if fs.isDir ice_build then fs.childDirs ice_build else []

/-- The portion of `build_compile_plan` after the folder and tool
checks (lines 245-321), taking the discovery result as an argument. -/
def plan_from_discovery (fs : FS) (lang folder : String) (tb_file : Option String)
    (iverilog gtkwave : String) (d : Discovery) : PlanResult :=
  let source_files := d.source_files
  let base_path := fs.resolve folder
  if source_files.isEmpty && pathName base_path == ICE_BUILD_DIR &&
      (fs.childDirs base_path).length > 1 then
    ⟨false, [popupError "msg_multiple_icestudio" lang], none⟩
  else if source_files.isEmpty then
    ⟨false, [popupError "msg_no_sources" lang], none⟩
  else
    let selected_tb := resolve_selected_tb tb_file d
    if d.effective_mode == "icestudio" then
      let scope_dir := guess_icestudio_scope fs base_path selected_tb
      let ice_build := joinPath base_path ICE_BUILD_DIR
      let project_dirs := ice_project_dirs fs ice_build
      if scope_dir == base_path && project_dirs.length > 1 then
        ⟨false, [popupError "msg_multiple_icestudio" lang], none⟩
      else
        finalize_plan fs lang folder d.effective_mode selected_tb
          (icestudio_effective_sources fs base_path selected_tb source_files)
          iverilog gtkwave
    else
      finalize_plan fs lang folder d.effective_mode selected_tb source_files iverilog gtkwave

/-- Mirror of `SimulationManager.build_compile_plan(folder, mode, tb_file,
require_tools)`. -/
def build_compile_plan (fs : FS) (config : Config) (folder0 mode0 tb_file : Option String)
    (require_tools : Bool) : PlanResult :=
  let lang := normalize_lang config.language
  let folder := effective_folder config folder0
  let mode := effective_mode_arg config mode0
  let iverilog := strTrim config.iverilog_path
  let gtkwave := strTrim config.gtkwave_path
  if folder == "" || ¬ fs.isDir folder then
    ⟨false, [popupError "msg_folder_invalid" lang], none⟩
  else if require_tools && (iverilog == "" || ¬ fs.isFile iverilog) then
    ⟨false, [popupError "msg_iverilog_invalid" lang], none⟩
  else if require_tools && (gtkwave == "" || ¬ fs.isFile gtkwave) then
    ⟨false, [popupError "msg_gtkwave_invalid" lang], none⟩
  else
    plan_from_discovery fs lang folder tb_file iverilog gtkwave
      (discover_project_files fs folder mode)

/-! ## Waveform artifact selection (`SimulationManager._find_recent_vcd`) -/

/-- Insert into a python-style dict represented as an association list:
updating an existing key keeps its position, a new key is appended. -/
def dictUpsert (d : List (String × Int)) (k : String) (v : Int) : List (String × Int) :=
  if d.any fun kv => kv.1 == k then
    d.map fun kv => if kv.1 == k then (k, v) else kv
  else d ++ [(k, v)]

/-- Mirror of the dict comprehension
`{str(path.resolve()): path.stat().st_mtime for path in base.glob("*.vcd")}`. -/
def vcd_snapshot (fs : FS) (folder : String) : List (String × Int) :=
  (fs.glob folder ".vcd").foldl (fun d p => dictUpsert d (fs.resolve p) (fs.mtimeOf p)) []

/-- Mirror of the `new_or_updated` filter in `_find_recent_vcd`: dump
files that are absent from the snapshot or strictly newer than it. -/
def new_or_updated (current previous : List (String × Int)) : List (String × Int) :=
  current.filter fun pm =>
    match previous.lookup pm.1 with
    | none => true
    | some m0 => pm.2 > m0

/-- Python `max(items, key=lambda item: item[1])` (first maximum wins),
returning `none` on an empty list where python would raise. -/
def maxByMtime : List (String × Int) → Option (String × Int)
  | [] => none
  | x :: xs => some (xs.foldl (fun best y => if y.2 > best.2 then y else best) x)

/-- Mirror of `SimulationManager._find_recent_vcd(folder, previous_snapshot)`. -/
def find_recent_vcd (fs : FS) (folder : String)
    (previous_snapshot : List (String × Int)) : Option String :=
  let current_vcds := vcd_snapshot fs folder
  match maxByMtime (new_or_updated current_vcds previous_snapshot) with
  | some pm => some pm.1
  | none => (maxByMtime current_vcds).map (·.1)

/-! ## Testbench top extraction (`SimulationManager._extract_tb_top`),
including the scan performed by
`re.search(r"\bmodule\s+([a-zA-Z_][a-zA-Z0-9_]*)\b", content)`. -/

/-- The regex word-character class `\w` over ASCII. -/
def isWordChar (c : Char) : Bool := c.isAlphanum || c == '_'

/-- The regex whitespace class `\s` over ASCII. -/
def isPySpace (c : Char) : Bool :=
  c == ' ' || c == '\t' || c == '\n' || c == '\r' || c == '\x0b' || c == '\x0c'

/-- Try to match `module\s+([a-zA-Z_][a-zA-Z0-9_]*)` at the head of the
character list, returning the captured identifier. -/
def matchModuleAt : List Char → Option String
  | 'm' :: 'o' :: 'd' :: 'u' :: 'l' :: 'e' :: rest =>
    if (rest.takeWhile isPySpace).isEmpty then none
    else
      match rest.dropWhile isPySpace with
      | c :: cs =>
        if c.isAlpha || c == '_' then some (String.mk (c :: cs.takeWhile isWordChar))
        else none
      | [] => none
  | _ => none

/-- Left-to-right scan for the leftmost match of
`\bmodule\s+([a-zA-Z_][a-zA-Z0-9_]*)\b`; `prev` is the character before
the current position, used for the word-boundary test. -/
def scanForModule : Option Char → List Char → Option String
  | _, [] => none
  | prev, c :: cs =>
    let boundary :=
      match prev with
      | none => true
      | some p => ¬ isWordChar p
    match (if boundary then matchModuleAt (c :: cs) else none) with
    | some name => some name
    | none => scanForModule (some c) cs

/-- Mirror of `SimulationManager._extract_tb_top(tb_file)`. -/
def extract_tb_top (fs : FS) (tb_file : Option String) : Option String :=
  match tb_file with
  | none => none
  | some t =>
    if t == "" || ¬ fs.isFile t then none
    else scanForModule none (fs.readFile t).toList

/-! ## Viewer config generation (`SimulationManager.create_gtkw_config`).
The VCD parse result of the external `vcdvcd` library is taken as
input: a list of signals, each with its `var_type` and hierarchical
reference names. -/

/-- One parsed VCD signal as exposed by `vcdvcd` (`vcd.data.values()`). -/
structure VcdSignal where
  var_type : String
  references : List String
deriving Repr

/-- Lowercase hex digit class `[a-f0-9]` of the exclusion regex. -/
def isHexLower (c : Char) : Bool := c.isDigit || ('a' ≤ c && c ≤ 'f')

/-- Length of the longest prefix satisfying `p`. -/
def leadingCount (p : Char → Bool) : List Char → Nat
  | [] => 0
  | c :: cs => if p c then leadingCount p cs + 1 else 0

/-- Match one alternative of `\.v[a-f0-9]{6,}|\.w\d+|\.vinit` at the
head of an (already lowercased) character list. -/
def excludeMatchAt : List Char → Bool
  | '.' :: 'v' :: rest =>
    leadingCount isHexLower rest ≥ 6 ||
      (match rest with
       | 'i' :: 'n' :: 'i' :: 't' :: _ => true
       | _ => false)
  | '.' :: 'w' :: rest => leadingCount Char.isDigit rest ≥ 1
  | _ => false

/-- Search for the exclusion pattern anywhere in the list
(`exclude_pattern.search`, after lowercasing for `re.IGNORECASE`). -/
def excludeSearch : List Char → Bool
  | [] => false
  | c :: cs => excludeMatchAt (c :: cs) || excludeSearch cs

/-- The per-name filter in the signal gathering loop: skip names
containing `DURATION` and names matched by the exclusion pattern. -/
def keepSignalName (n : String) : Bool :=
  ¬ strContains n "DURATION" && ¬ excludeSearch (strToLower n).data

/-- All `(var_type, name)` pairs surviving the gathering loop filters. -/
def surviving_refs (signals : List VcdSignal) : List (String × String) :=
  signals.flatMap fun s => (s.references.filter keepSignalName).map fun n => (s.var_type, n)

/-- The `all_signals` set built by the gathering loop, as a list of the
names added to it (a name may be listed more than once; only
membership and emptiness are meaningful, matching python set use). -/
def all_signals (signals : List VcdSignal) : List String :=
  (surviving_refs signals).map (·.2)

/-- The `reg_signals` set built by the gathering loop. -/
def reg_signals (signals : List VcdSignal) : List String :=
  (((surviving_refs signals).filter fun p => p.1 == "reg").map (·.2))

/-- The `wire_signals` set built by the gathering loop. -/
def wire_signals (signals : List VcdSignal) : List String :=
  (((surviving_refs signals).filter fun p => p.1 == "wire").map (·.2))

/-- Python `sorted(s)` for a set `s` represented as a list of the
elements added to it: the sorted list of distinct elements. -/
def sortedSet (l : List String) : List String := sortStrings l.dedup

/-- Screen dimensions handed to `create_gtkw_config`
(`screen_size.width()`, `screen_size.height()`). -/
structure ScreenSize where
  width : Int
  height : Int
deriving DecidableEq, Repr

/-- The scoped signal selection: reg and wire names prefixed by
`"<tb_top>."` when a top module name is known, else empty sets. -/
def scoped_selection (regs wires : List String) (tb_top : Option String) :
    List String × List String :=
  match tb_top with
  | some t =>
    if t ≠ "" then
      (regs.filter fun n => strStartsWith n (t ++ "."),
       wires.filter fun n => strStartsWith n (t ++ "."))
    else ([], [])
  | none => ([], [])

/-- The three-stage signal-selection fallback of `create_gtkw_config`:
the scoped selection, else the classified reg/wire sets, else all
surviving signals. -/
def select_signals (regs wires alls : List String) (tb_top : Option String) :
    List String × List String :=
  let scsel := scoped_selection regs wires tb_top
  let sel1 := if scsel.1.isEmpty ∧ scsel.2.isEmpty then (regs, wires) else scsel
  if sel1.1.isEmpty ∧ sel1.2.isEmpty then (sel1.1, alls) else sel1

/-- Mirror of `SimulationManager.create_gtkw_config(vcd_path, gtkw_path,
screen_size, tb_top)`. Instead of writing to `gtkw_path`, the model
returns the written lines; the boolean is the python return value. -/
def create_gtkw_config (fs : FS) (parse_vcd : String → List VcdSignal)
    (vcd_path gtkw_path : String) (screen_size : ScreenSize) (tb_top : Option String) :
    Bool × Option (List String) :=
  if ¬ fs.pathExists vcd_path then (false, none)
  else
    let signals := parse_vcd vcd_path
    let sel := select_signals (reg_signals signals) (wire_signals signals)
      (all_signals signals) tb_top
    let header :=
      ["[dumpfile] \"" ++ pathName vcd_path ++ "\"",
       "[size] " ++ toString screen_size.width ++ " " ++ toString screen_size.height]
    (true, some (header ++ sortedSet sel.1 ++ sortedSet sel.2))

/-! ## Run pipeline (`SimulationManager.run_simulation`) and viewer
lifecycle (`SimulationManager.close_gtkwave`). Subprocess outcomes and
the filesystem evolution across the external compile and simulate
calls are environment inputs; the model additionally records the
external actions performed, in order. -/

/-- Outcome of a blocking `subprocess.run` call. -/
structure SubprocessResult where
  returncode : Int
  stdout : String
  stderr : String
deriving DecidableEq, Repr

/-- Tracked state of the background `ProcessRunner` viewer thread. -/
structure GtkwaveThread where
  is_running : Bool
  has_process : Bool
deriving DecidableEq, Repr

/-- The mutable state of a `SimulationManager` instance relevant here. -/
structure ManagerState where
  gtkwave_thread : Option GtkwaveThread
deriving DecidableEq, Repr

/-- Environment of one `run_simulation` call: the filesystem at plan
time, after the compile step, and after the simulate step; the two
subprocess outcomes; and the external VCD parser. -/
structure Env where
  fs : FS
  config : Config
  is_windows : Bool
  compile_result : SubprocessResult
  fsAfterCompile : FS
  sim_result : SubprocessResult
  fsAfterSim : FS
  parse_vcd : String → List VcdSignal

/-- External actions a `run_simulation` call can perform, in order. -/
inductive RunAction where
  | compile_call (cmd : List String)
  | simulate_call (cmd : List String)
  | gtkw_write (path : String)
  | viewer_stop
  | viewer_launch (cmd : List String)
deriving DecidableEq, Repr

/-- Result of `run_simulation`: the `(success, messages)` pair, the
manager state afterwards, and the recorded external actions. -/
structure RunResult where
  success : Bool
  messages : List Message
  finalState : ManagerState
  actions : List RunAction
deriving DecidableEq, Repr

/-- Mirror of `SimulationManager.run_simulation(screen_size, folder,
mode, tb_file)`. -/
def run_simulation (env : Env) (st : ManagerState) (screen_size : ScreenSize)
    (folder0 mode0 tb_file : Option String) : RunResult :=
  let lang := normalize_lang env.config.language
  let pr := build_compile_plan env.fs env.config folder0 mode0 tb_file true
  match pr.plan with
  | none => ⟨false, pr.messages, st, []⟩
  | some plan =>
    let folder := plan.folder
    let output_file := joinPath folder "simulation.out"
    let gtkw_config := joinPath folder "simulation.gtkw"
    let iverilog_dir := pathDirname plan.iverilog
    let vvp_name := if env.is_windows then "vvp.exe" else "vvp"
    let vvp_path0 := joinPath iverilog_dir vvp_name
    let vvp_path := if env.fs.isFile vvp_path0 then vvp_path0 else vvp_name
    let compile_cmd :=
      [plan.iverilog, "-o", output_file, "-DVCD_OUTPUT=simulation"] ++ plan.compile_files
    let sim_cmd := [vvp_path, output_file]
    let messages := pr.messages ++
      [create_message .log
        (tr "msg_compiling" lang
          [("count", toString plan.compile_files.length), ("mode", plan.mode)]) [] []]
    let actions := [RunAction.compile_call compile_cmd]
    if env.compile_result.returncode ≠ 0 then
      ⟨false,
       messages ++
         [create_message .error
           (tr "msg_compile_error" lang [("stderr", env.compile_result.stderr)])
           ["popup"] [("stage", "compile"), ("stderr", env.compile_result.stderr)]],
       st, actions⟩
    else
      let previous_vcd_snapshot := vcd_snapshot env.fsAfterCompile folder
      let messages := messages ++ [create_message .log (tr "msg_running" lang []) [] []]
      let actions := actions ++ [RunAction.simulate_call sim_cmd]
      if env.sim_result.returncode ≠ 0 then
        ⟨false,
         messages ++
           [create_message .error
             (tr "msg_sim_error" lang [("stderr", env.sim_result.stderr)])
             ["popup"] [("stage", "simulate"), ("stderr", env.sim_result.stderr)]],
         st, actions⟩
      else
        match find_recent_vcd env.fsAfterSim folder previous_vcd_snapshot with
        | none => ⟨false, messages ++ [popupError "msg_no_vcd" lang], st, actions⟩
        | some vcd_file =>
          let tb_top := extract_tb_top env.fsAfterSim plan.selected_tb
          let gen :=
            create_gtkw_config env.fsAfterSim env.parse_vcd vcd_file gtkw_config
              screen_size tb_top
          if ¬ gen.1 then
            ⟨false, messages ++ [popupError "msg_gtkw_config_error" lang], st, actions⟩
          else
            let actions := actions ++ [RunAction.gtkw_write gtkw_config]
            let gtkwave_cmd := [plan.gtkwave, gtkw_config]
            let gtkwave_cmd_text := "\"" ++ plan.gtkwave ++ "\" \"" ++ gtkw_config ++ "\""
            let running :=
              match st.gtkwave_thread with
              | some th => th.is_running
              | none => false
            let msgsActs :=
              if running then
                (messages ++
                  [create_message .success (tr "msg_sim_updated" lang []) ["toast"] [],
                   create_message .log (tr "msg_gtkw_restarting" lang []) [] []],
                 actions ++ [RunAction.viewer_stop])
              else (messages, actions)
            ⟨true,
             msgsActs.1 ++
               [create_message .log (tr "msg_opening_gtkw" lang [("cmd", gtkwave_cmd_text)]) [] []],
             ⟨some ⟨true, true⟩⟩,
             msgsActs.2 ++ [RunAction.viewer_launch gtkwave_cmd]⟩

/-- Environment of one `close_gtkwave` call: configuration, platform,
and whether killing the tracked process handle raises. -/
structure CloseEnv where
  config : Config
  is_windows : Bool
  kill_ok : Bool
  kill_error : String

/-- External actions a `close_gtkwave` call can perform. -/
inductive CloseAction where
  | os_kill_by_name (cmd : String)
  | kill_tracked
deriving DecidableEq, Repr

/-- Result of `close_gtkwave`: state afterwards, the returned boolean
and message list, and the recorded external actions. -/
structure CloseResult where
  finalState : ManagerState
  ok : Bool
  messages : List Message
  actions : List CloseAction
deriving DecidableEq, Repr

/-- Mirror of `SimulationManager.close_gtkwave()`. -/
def close_gtkwave (env : CloseEnv) (st : ManagerState) : CloseResult :=
  let lang := normalize_lang env.config.language
  match st.gtkwave_thread with
  | none => ⟨st, true, [], []⟩
  | some th =>
    if ¬ th.is_running then ⟨st, true, [], []⟩
    else
      let messages := [create_message .log (tr "msg_gtkw_closing" lang []) [] []]
      let killCmd := if env.is_windows then "taskkill /IM gtkwave.exe /F" else "pkill -f gtkwave"
      let actions := [CloseAction.os_kill_by_name killCmd]
      let msgsActs :=
        if th.has_process then
          (messages ++
            [if env.kill_ok then create_message .log (tr "msg_gtkw_closed" lang []) [] []
             else
               create_message .log
                 (tr "msg_gtkw_close_error" lang [("error", env.kill_error)]) [] []],
           actions ++ [CloseAction.kill_tracked])
        else (messages, actions)
      ⟨⟨none⟩, true, msgsActs.1, msgsActs.2⟩

/-! ## Concrete fixtures used to instantiate the theorems -/

/-- A canonicalization function for fixture filesystems whose entry
paths are already canonical: the identity, sending the empty path to
the filesystem root. -/
def canonResolve : String → String := fun p => if p = "" then "/" else p

/-- A generic-layout project: `/p` with one source, one conventional
testbench, and the two tool binaries under `/t`. -/
def fsGeneric : FS :=
  { entries :=
      [⟨"/p", true, false, 0, ""⟩,
       ⟨"/p/a.v", false, true, 5, "module main; endmodule\n"⟩,
       ⟨"/p/main_tb.v", false, true, 6, "`timescale 1ns\nmodule main_tb;\nendmodule\n"⟩,
       ⟨"/t", true, false, 0, ""⟩,
       ⟨"/t/iverilog", false, true, 0, ""⟩,
       ⟨"/t/gtkwave", false, true, 0, ""⟩],
    resolve := canonResolve }

/-- The generic fixture after a simulation produced `/p/sim.vcd`. -/
def fsVcd : FS :=
  { entries := fsGeneric.entries ++ [⟨"/p/sim.vcd", false, true, 10, ""⟩],
    resolve := canonResolve }

/-- An Icestudio-layout project whose `ice-build` directory holds two
subprojects and whose root holds no sources. -/
def fsIceMulti : FS :=
  { entries :=
      [⟨"/p", true, false, 0, ""⟩,
       ⟨"/p/ice-build", true, false, 0, ""⟩,
       ⟨"/p/ice-build/alpha", true, false, 0, ""⟩,
       ⟨"/p/ice-build/beta", true, false, 0, ""⟩,
       ⟨"/p/ice-build/alpha/x.v", false, true, 1, ""⟩,
       ⟨"/p/ice-build/beta/y.v", false, true, 2, ""⟩,
       ⟨"/t", true, false, 0, ""⟩,
       ⟨"/t/iverilog", false, true, 0, ""⟩,
       ⟨"/t/gtkwave", false, true, 0, ""⟩],
    resolve := canonResolve }

/-- An English configuration with valid tool paths. -/
def cfgEn : Config := ⟨"en", "", "", "/t/iverilog", "/t/gtkwave"⟩

/-- A configuration whose compiler path does not exist on `fsGeneric`. -/
def cfgNoIv : Config := ⟨"en", "", "", "/t/missing", "/t/gtkwave"⟩

/-- A VCD parse fixture with one state-holding and one combinational
signal under `main_tb` plus one synthesized temporary. -/
def parseDemo : String → List VcdSignal := fun _ =>
  [⟨"reg", ["main_tb.clk"]⟩, ⟨"wire", ["main_tb.q", "main_tb.dut.vabc123456"]⟩]

/-- A run environment whose compiler invocation fails with exit code 2. -/
def envCompileFail : Env :=
  { fs := fsGeneric, config := cfgEn, is_windows := false,
    compile_result := ⟨2, "", "foo.v:10: syntax error"⟩,
    fsAfterCompile := fsGeneric,
    sim_result := ⟨0, "", ""⟩,
    fsAfterSim := fsGeneric,
    parse_vcd := parseDemo }

/-- A run environment where compile and simulate succeed and the
simulator produced `/p/sim.vcd`. -/
def envRunOk : Env :=
  { fs := fsGeneric, config := cfgEn, is_windows := false,
    compile_result := ⟨0, "", ""⟩,
    fsAfterCompile := fsGeneric,
    sim_result := ⟨0, "", ""⟩,
    fsAfterSim := fsVcd,
    parse_vcd := parseDemo }

/-- A run environment where compile and simulate succeed but no dump
file exists afterwards. -/
def envRunNoVcd : Env :=
  { fs := fsGeneric, config := cfgEn, is_windows := false,
    compile_result := ⟨0, "", ""⟩,
    fsAfterCompile := fsGeneric,
    sim_result := ⟨0, "", ""⟩,
    fsAfterSim := fsGeneric,
    parse_vcd := parseDemo }

/-! ## Order properties of the string comparison -/

theorem charListLe_total : ∀ a b, charListLe a b = true ∨ charListLe b a = true
  | [], _ => by left; rfl
  | _ :: _, [] => by right; rfl
  | x :: xs, y :: ys => by
    by_cases hxy : x = y
    · subst hxy
      rcases charListLe_total xs ys with h | h
      · left; simpa [charListLe] using h
      · right; simpa [charListLe] using h
    · rcases lt_or_gt_of_ne hxy with h | h
      · left; simp [charListLe, hxy, h]
      · right; simp [charListLe, Ne.symm hxy, h]

theorem charListLe_trans : ∀ a b c, charListLe a b = true → charListLe b c = true →
    charListLe a c = true
  | [], _, _ => by intro _ _; rfl
  | x :: xs, [], _ => by intro h _; simp [charListLe] at h
  | _ :: _, _ :: _, [] => by intro _ h; simp [charListLe] at h
  | x :: xs, y :: ys, z :: zs => by
    intro h1 h2
    by_cases hxy : x = y <;> by_cases hyz : y = z
    · subst hxy; subst hyz
      simp only [charListLe, if_pos rfl] at h1 h2 ⊢
      exact charListLe_trans xs ys zs h1 h2
    · subst hxy
      simp only [charListLe, if_pos rfl, if_neg hyz, decide_eq_true_eq] at h2 ⊢
      exact h2
    · subst hyz
      simp only [charListLe, if_neg hxy, decide_eq_true_eq] at h1 ⊢
      exact h1
    · simp only [charListLe, if_neg hxy, if_neg hyz, decide_eq_true_eq] at h1 h2
      have hxz : x < z := lt_trans h1 h2
      simp [charListLe, ne_of_lt hxz, hxz]

theorem charListLe_antisymm : ∀ a b, charListLe a b = true → charListLe b a = true → a = b
  | [], [] => by intro _ _; rfl
  | [], _ :: _ => by intro _ h; simp [charListLe] at h
  | _ :: _, [] => by intro h _; simp [charListLe] at h
  | x :: xs, y :: ys => by
    intro h1 h2
    by_cases hxy : x = y
    · subst hxy
      simp only [charListLe, if_pos rfl] at h1 h2
      rw [charListLe_antisymm xs ys h1 h2]
    · simp only [charListLe, if_neg hxy, if_neg (Ne.symm hxy), decide_eq_true_eq] at h1 h2
      exact absurd h2 (not_lt_of_gt h1)

theorem strLe_total (a b : String) : strLe a b = true ∨ strLe b a = true :=
  charListLe_total a.data b.data

theorem strLe_trans {a b c : String} (h1 : strLe a b = true) (h2 : strLe b c = true) :
    strLe a c = true :=
  charListLe_trans a.data b.data c.data h1 h2

theorem strLe_antisymm {a b : String} (h1 : strLe a b = true) (h2 : strLe b a = true) :
    a = b := by
  cases a with
  | mk da =>
    cases b with
    | mk db => exact congrArg String.mk (charListLe_antisymm da db h1 h2)

instance : IsTotal String fun a b => strLe a b = true := ⟨strLe_total⟩

instance : IsTrans String fun a b => strLe a b = true := ⟨fun _ _ _ => strLe_trans⟩

instance : IsAntisymm String fun a b => strLe a b = true := ⟨fun _ _ => strLe_antisymm⟩

/-! ## Lemmas about `sortStrings` and `sorted_unique_paths` -/

theorem sortStrings_sorted (l : List String) :
    (sortStrings l).Sorted fun a b => strLe a b = true :=
  List.sorted_insertionSort _ l

theorem mem_sortStrings {l : List String} {a : String} : a ∈ sortStrings l ↔ a ∈ l :=
  List.mem_insertionSort _

theorem sortStrings_nodup {l : List String} (h : l.Nodup) : (sortStrings l).Nodup :=
  (List.perm_insertionSort _ l).nodup_iff.mpr h

theorem sorted_unique_paths_sorted (fs : FS) (l : List String) :
    (sorted_unique_paths fs l).Sorted fun a b => strLe a b = true :=
  sortStrings_sorted _

theorem sorted_unique_paths_nodup (fs : FS) (l : List String) :
    (sorted_unique_paths fs l).Nodup :=
  sortStrings_nodup (List.nodup_dedup _)

theorem mem_sorted_unique_paths {fs : FS} {l : List String} {a : String} :
    a ∈ sorted_unique_paths fs l ↔ ∃ p ∈ l, p ≠ "" ∧ fs.resolve p = a := by
  simp only [sorted_unique_paths, mem_sortStrings, List.mem_dedup, List.mem_map,
    List.mem_filter, decide_eq_true_eq]
  constructor
  · rintro ⟨p, ⟨hp, hne⟩, hres⟩
    exact ⟨p, hp, hne, hres⟩
  · rintro ⟨p, hp, hne, hres⟩
    exact ⟨p, ⟨hp, hne⟩, hres⟩

/-- A list whose members are all `resolve` images. -/
def resolvedList (fs : FS) (l : List String) : Prop :=
  ∀ x ∈ l, ∃ p, x = fs.resolve p

theorem resolve_fixed_of_mem {fs : FS} (hwf : fs.WF) {l : List String} (hl : resolvedList fs l)
    {a : String} (ha : a ∈ l) : fs.resolve a = a := by
  obtain ⟨p, rfl⟩ := hl a ha
  exact hwf.resolve_idem p

theorem mem_sorted_unique_paths_of_resolved {fs : FS} (hwf : fs.WF) {l : List String}
    (hl : resolvedList fs l) {a : String} :
    a ∈ sorted_unique_paths fs l ↔ a ∈ l := by
  rw [mem_sorted_unique_paths]
  constructor
  · rintro ⟨p, hp, -, rfl⟩
    rwa [resolve_fixed_of_mem hwf hl hp]
  · intro ha
    refine ⟨a, ha, ?_, resolve_fixed_of_mem hwf hl ha⟩
    obtain ⟨p, rfl⟩ := hl a ha
    exact hwf.resolve_ne_empty p

theorem resolvedList_sorted_unique_paths (fs : FS) (l : List String) :
    resolvedList fs (sorted_unique_paths fs l) := by
  intro x hx
  obtain ⟨p, -, -, hres⟩ := mem_sorted_unique_paths.mp hx
  exact ⟨p, hres.symm⟩

theorem resolvedList_map (fs : FS) (l : List String) : resolvedList fs (l.map fs.resolve) := by
  intro x hx
  obtain ⟨p, -, hres⟩ := List.mem_map.mp hx
  exact ⟨p, hres.symm⟩

theorem resolvedList_sortStrings_map (fs : FS) (l : List String) :
    resolvedList fs (sortStrings (l.map fs.resolve)) := by
  intro x hx
  exact resolvedList_map fs l x (mem_sortStrings.mp hx)

theorem head?_mem_of_eq_some {α : Type} {l : List α} {t : α} (h : l.head? = some t) :
    t ∈ l := by
  cases l <;> simp_all [List.head?]

/-! ## Structural lemmas about `discover_project_files` -/

theorem resolvedList_discover_tb_full (fs : FS) (base eff : String) :
    resolvedList fs (discover_tb_full fs base eff) := by
  unfold discover_tb_full
  split <;> exact resolvedList_sortStrings_map fs _

theorem sorted_discover_tb_full (fs : FS) (base eff : String) :
    (discover_tb_full fs base eff).Sorted fun a b => strLe a b = true := by
  unfold discover_tb_full
  split <;> exact sortStrings_sorted _

theorem discovery_tb_files_resolvedList (fs : FS) (folder mode : String) :
    resolvedList fs (discover_project_files fs folder mode).tb_files := by
  simp only [discover_project_files]
  exact resolvedList_sorted_unique_paths fs _

theorem discovery_source_files_resolvedList (fs : FS) (folder mode : String) :
    resolvedList fs (discover_project_files fs folder mode).source_files := by
  simp only [discover_project_files]
  exact resolvedList_sorted_unique_paths fs _

theorem preferred_tb_resolved {fs : FS} {folder mode t : String}
    (h : (discover_project_files fs folder mode).preferred_tb = some t) :
    ∃ q, t = fs.resolve q := by
  simp only [discover_project_files] at h
  split at h
  · exact ⟨_, (Option.some_injective _ h).symm⟩
  · exact resolvedList_discover_tb_full fs _ _ t (head?_mem_of_eq_some h)

theorem selected_tb_resolved {fs : FS} {folder mode t : String} {tbf : Option String}
    (h : resolve_selected_tb tbf (discover_project_files fs folder mode) = some t) :
    ∃ q, t = fs.resolve q := by
  cases tbf with
  | none => exact preferred_tb_resolved h
  | some x =>
    simp only [resolve_selected_tb] at h
    split at h
    · next hmem =>
      cases h
      exact discovery_tb_files_resolvedList fs folder mode t hmem
    · exact preferred_tb_resolved h

/-! ## Structural lemmas about `build_compile_plan` -/

theorem resolvedList_icestudio_effective_sources {fs : FS} {base : String}
    {tb : Option String} {src : List String} (hsrc : resolvedList fs src) :
    resolvedList fs (icestudio_effective_sources fs base tb src) := by
  simp only [icestudio_effective_sources]
  split
  · exact hsrc
  · exact resolvedList_sorted_unique_paths fs _

theorem finalize_plan_plan_some {fs : FS} {lang folder eff : String} {tb : Option String}
    {src : List String} {iv gw : String} {p : CompilePlan}
    (h : (finalize_plan fs lang folder eff tb src iv gw).plan = some p) :
    p = { folder := folder, mode := eff, selected_tb := tb,
          compile_files := sorted_unique_paths fs
            ((src.filter fun s => ¬ strEndsWith (pathName s) "_tb.v") ++ tb.toList),
          iverilog := iv, gtkwave := gw } ∧
    p.compile_files ≠ [] := by
  simp only [finalize_plan] at h
  split at h
  · simp at h
  · next hne =>
    cases h
    refine ⟨rfl, ?_⟩
    simpa [List.isEmpty_iff] using hne

theorem plan_from_discovery_shape (fs : FS) (lang folder : String) (tbf : Option String)
    (iv gw : String) (d : Discovery) :
    (∃ m, plan_from_discovery fs lang folder tbf iv gw d = ⟨false, [m], none⟩) ∨
    ∃ p, plan_from_discovery fs lang folder tbf iv gw d = ⟨true, [], some p⟩ := by
  simp only [plan_from_discovery, finalize_plan]
  split_ifs <;> first
    | (left; exact ⟨_, rfl⟩)
    | (right; exact ⟨_, rfl⟩)

theorem build_compile_plan_shape (fs : FS) (config : Config) (f0 m0 tbf : Option String)
    (rt : Bool) :
    (∃ m, build_compile_plan fs config f0 m0 tbf rt = ⟨false, [m], none⟩) ∨
    ∃ p, build_compile_plan fs config f0 m0 tbf rt = ⟨true, [], some p⟩ := by
  simp only [build_compile_plan]
  split_ifs
  · left; exact ⟨_, rfl⟩
  · left; exact ⟨_, rfl⟩
  · left; exact ⟨_, rfl⟩
  · exact plan_from_discovery_shape fs _ _ tbf _ _ _

theorem build_success_iff_plan {fs : FS} {config : Config} {f0 m0 tbf : Option String}
    {rt : Bool} :
    (build_compile_plan fs config f0 m0 tbf rt).success = true ↔
      ∃ p, (build_compile_plan fs config f0 m0 tbf rt).plan = some p := by
  rcases build_compile_plan_shape fs config f0 m0 tbf rt with ⟨m, hm⟩ | ⟨p, hp⟩
  · simp [hm]
  · simp [hp]

theorem build_success_messages_nil {fs : FS} {config : Config} {f0 m0 tbf : Option String}
    {rt : Bool} (h : (build_compile_plan fs config f0 m0 tbf rt).success = true) :
    (build_compile_plan fs config f0 m0 tbf rt).messages = [] := by
  rcases build_compile_plan_shape fs config f0 m0 tbf rt with ⟨m, hm⟩ | ⟨p, hp⟩
  · rw [hm] at h; simp at h
  · rw [hp]

theorem plan_from_discovery_plan_inv {fs : FS} {lang folder : String} {tbf : Option String}
    {iv gw : String} {d : Discovery} {p : CompilePlan}
    (h : (plan_from_discovery fs lang folder tbf iv gw d).plan = some p)
    (hd : resolvedList fs d.source_files) :
    ∃ src, resolvedList fs src ∧
      (finalize_plan fs lang folder d.effective_mode (resolve_selected_tb tbf d) src
        iv gw).plan = some p := by
  simp only [plan_from_discovery] at h
  split at h
  · simp at h
  · split at h
    · simp at h
    · split at h
      · split at h
        · simp at h
        · exact ⟨_, resolvedList_icestudio_effective_sources hd, h⟩
      · exact ⟨_, hd, h⟩

theorem build_compile_plan_plan_inv {fs : FS} {config : Config} {f0 m0 tbf : Option String}
    {rt : Bool} {p : CompilePlan}
    (h : (build_compile_plan fs config f0 m0 tbf rt).plan = some p) :
    ∃ src, resolvedList fs src ∧
      (finalize_plan fs (normalize_lang config.language) (effective_folder config f0)
        (discover_project_files fs (effective_folder config f0)
          (effective_mode_arg config m0)).effective_mode
        (resolve_selected_tb tbf
          (discover_project_files fs (effective_folder config f0)
            (effective_mode_arg config m0)))
        src (strTrim config.iverilog_path) (strTrim config.gtkwave_path)).plan = some p := by
  simp only [build_compile_plan] at h
  split at h
  · simp at h
  · split at h
    · simp at h
    · split at h
      · simp at h
      · exact plan_from_discovery_plan_inv h (discovery_source_files_resolvedList fs _ _)

theorem normalize_lang_cases (lang : String) :
    normalize_lang lang = "en" ∨ normalize_lang lang = "es" := by
  unfold normalize_lang
  split
  · next h =>
    simp only [Bool.or_eq_true, beq_iff_eq] at h
    rcases h with h | h
    · left; exact h
    · right; exact h
  · left; rfl

theorem popup_multi_ne_no_sources (lang : String) :
    popupError "msg_multiple_icestudio" lang ≠ popupError "msg_no_sources" lang := by
  rcases normalize_lang_cases lang with h | h <;>
    · simp only [popupError, create_message, tr]
      rw [h]
      decide

/-- When the folder and (if required) tool checks pass,
`build_compile_plan` is the discovery-driven remainder. -/
theorem build_passes_checks {fs : FS} {config : Config} {f0 m0 tbf : Option String}
    {rt : Bool}
    (h1 : effective_folder config f0 ≠ "")
    (h2 : fs.isDir (effective_folder config f0) = true)
    (h3 : rt = true → strTrim config.iverilog_path ≠ "" ∧
      fs.isFile (strTrim config.iverilog_path) = true)
    (h4 : rt = true → strTrim config.gtkwave_path ≠ "" ∧
      fs.isFile (strTrim config.gtkwave_path) = true) :
    build_compile_plan fs config f0 m0 tbf rt =
      plan_from_discovery fs (normalize_lang config.language) (effective_folder config f0) tbf
        (strTrim config.iverilog_path) (strTrim config.gtkwave_path)
        (discover_project_files fs (effective_folder config f0)
          (effective_mode_arg config m0)) := by
  simp only [build_compile_plan]
  split_ifs with hc1 hc2 hc3
  · exfalso
    simp only [Bool.or_eq_true, beq_iff_eq, decide_eq_true_eq] at hc1
    rcases hc1 with hc1 | hc1
    · exact h1 hc1
    · rw [h2] at hc1; exact hc1 rfl
  · exfalso
    simp only [Bool.and_eq_true, Bool.or_eq_true, beq_iff_eq, decide_eq_true_eq] at hc2
    obtain ⟨hrt, hc2⟩ := hc2
    obtain ⟨hne, hfile⟩ := h3 hrt
    rcases hc2 with hc2 | hc2
    · exact hne hc2
    · rw [hfile] at hc2; exact hc2 rfl
  · exfalso
    simp only [Bool.and_eq_true, Bool.or_eq_true, beq_iff_eq, decide_eq_true_eq] at hc3
    obtain ⟨hrt, hc3⟩ := hc3
    obtain ⟨hne, hfile⟩ := h4 hrt
    rcases hc3 with hc3 | hc3
    · exact hne hc3
    · rw [hfile] at hc3; exact hc3 rfl
  · rfl

/-- Any fixture filesystem built on `canonResolve` is well-formed. -/
theorem canonResolve_wf (entries : List FSEntry) : FS.WF ⟨entries, canonResolve⟩ := by
  constructor
  · intro p
    by_cases h : p = "" <;> simp [canonResolve, h]
  · intro p
    by_cases h : p = "" <;> simp [canonResolve, h]

theorem fsGeneric_wf : fsGeneric.WF := canonResolve_wf _

theorem fsVcd_wf : fsVcd.WF := canonResolve_wf _

theorem fsIceMulti_wf : fsIceMulti.WF := canonResolve_wf _

theorem isEmpty_false_of_ne_nil {α : Type} {l : List α} (h : l ≠ []) :
    l.isEmpty = false := by
  cases l with
  | nil => exact absurd rfl h
  | cons a as => rfl

/-- In icestudio mode with a non-empty discovery source set,
`plan_from_discovery` reduces to the scope-narrowing branch. -/
theorem plan_from_discovery_icestudio {fs : FS} {lang folder : String} {tbf : Option String}
    {iv gw : String} {d : Discovery}
    (hsrc : d.source_files ≠ [])
    (hice : d.effective_mode = "icestudio") :
    plan_from_discovery fs lang folder tbf iv gw d =
      (if guess_icestudio_scope fs (fs.resolve folder) (resolve_selected_tb tbf d) ==
            fs.resolve folder &&
          (ice_project_dirs fs (joinPath (fs.resolve folder) ICE_BUILD_DIR)).length > 1 then
        ⟨false, [popupError "msg_multiple_icestudio" lang], none⟩
      else
        finalize_plan fs lang folder d.effective_mode (resolve_selected_tb tbf d)
          (icestudio_effective_sources fs (fs.resolve folder) (resolve_selected_tb tbf d)
            d.source_files) iv gw) := by
  have hne : d.source_files.isEmpty = false := isEmpty_false_of_ne_nil hsrc
  simp only [plan_from_discovery, hne, hice, Bool.false_and, Bool.and_eq_true, beq_iff_eq]
  simp

theorem icestudio_effective_sources_of_ne {fs : FS} {base : String} {tb : Option String}
    {src : List String}
    (hne : ((fs.rglob (guess_icestudio_scope fs base tb) ".v").filter fun p =>
      ¬ strEndsWith (pathName p) "_tb.v").map fs.resolve ≠ []) :
    icestudio_effective_sources fs base tb src =
      sorted_unique_paths fs
        (((fs.rglob (guess_icestudio_scope fs base tb) ".v").filter fun p =>
          ¬ strEndsWith (pathName p) "_tb.v").map fs.resolve) := by
  simp only [icestudio_effective_sources, isEmpty_false_of_ne_nil hne]
  simp

theorem icestudio_effective_sources_of_nil {fs : FS} {base : String} {tb : Option String}
    {src : List String}
    (hnil : ((fs.rglob (guess_icestudio_scope fs base tb) ".v").filter fun p =>
      ¬ strEndsWith (pathName p) "_tb.v").map fs.resolve = []) :
    icestudio_effective_sources fs base tb src = src := by
  simp only [icestudio_effective_sources, hnil]
  simp

/-! ## Claim theorems -/

/-- C10: for every `build_compile_plan` invocation that returns
`success = true`, the returned message list is empty — messages (all
error-level) are produced only on failure paths. -/
theorem C10_success_plan_has_no_messages (fs : FS) (config : Config)
    (f0 m0 tbf : Option String) (rt : Bool)
    (h : (build_compile_plan fs config f0 m0 tbf rt).success = true) :
    (build_compile_plan fs config f0 m0 tbf rt).messages = [] :=
  build_success_messages_nil h

/-- Witness for C10 at a concrete successful invocation. -/
theorem C10_success_plan_has_no_messages_witness :
    (build_compile_plan fsGeneric cfgEn (some "/p") (some "auto") none false).success = true ∧
    (build_compile_plan fsGeneric cfgEn (some "/p") (some "auto") none false).messages = [] :=
  ⟨by decide,
   C10_success_plan_has_no_messages fsGeneric cfgEn (some "/p") (some "auto") none false
     (by decide)⟩

/-- C5: with `require_tools = true`, an existing folder, and a compiler
tool path that is unconfigured or not an existing file, the result is
failure with exactly the single compiler-path error message and no
plan, independently of the viewer-tool configuration and of anything
else in the filesystem (so before the viewer check and before any
discovery). -/
theorem C5_compiler_check_fails_first {fs : FS} {config : Config} {f0 m0 tbf : Option String}
    (hfolder1 : effective_folder config f0 ≠ "")
    (hfolder2 : fs.isDir (effective_folder config f0) = true)
    (hiv : strTrim config.iverilog_path = "" ∨
      fs.isFile (strTrim config.iverilog_path) = false) :
    build_compile_plan fs config f0 m0 tbf true =
      ⟨false, [popupError "msg_iverilog_invalid" (normalize_lang config.language)], none⟩ := by
  simp only [build_compile_plan]
  split_ifs with hc1 hc2 hc3
  · exfalso
    simp only [Bool.or_eq_true, beq_iff_eq, decide_eq_true_eq] at hc1
    rcases hc1 with hc1 | hc1
    · exact hfolder1 hc1
    · rw [hfolder2] at hc1; exact hc1 rfl
  · rfl
  all_goals
    exfalso
    apply hc2
    simp only [Bool.true_and, Bool.or_eq_true, beq_iff_eq, decide_eq_true_eq]
    rcases hiv with h | h
    · left; exact h
    · right; rw [h]; exact Bool.false_ne_true

/-- Witness for C5 at a concrete invocation with a missing compiler. -/
theorem C5_compiler_check_fails_first_witness :
    (effective_folder cfgNoIv (some "/p") ≠ "" ∧
      fsGeneric.isDir (effective_folder cfgNoIv (some "/p")) = true ∧
      (strTrim cfgNoIv.iverilog_path = "" ∨
        fsGeneric.isFile (strTrim cfgNoIv.iverilog_path) = false)) ∧
    build_compile_plan fsGeneric cfgNoIv (some "/p") (some "auto") none true =
      ⟨false, [popupError "msg_iverilog_invalid" (normalize_lang cfgNoIv.language)], none⟩ :=
  ⟨⟨by decide, by decide, by decide⟩,
   C5_compiler_check_fails_first (by decide) (by decide) (by decide)⟩

/-- C1: every successful `build_compile_plan` returns a plan whose
`compile_files` list is non-empty, sorted, duplicate-free, and contains
no file named like a testbench other than the selected one. -/
theorem C1_compile_files_invariants {fs : FS} {config : Config} {f0 m0 tbf : Option String}
    {rt : Bool} {p : CompilePlan} (hwf : fs.WF)
    (hs : (build_compile_plan fs config f0 m0 tbf rt).success = true)
    (hp : (build_compile_plan fs config f0 m0 tbf rt).plan = some p) :
    p.compile_files ≠ [] ∧
    (p.compile_files.Sorted fun a b => strLe a b = true) ∧
    p.compile_files.Nodup ∧
    ∀ f ∈ p.compile_files, strEndsWith (pathName f) "_tb.v" = true → p.selected_tb = some f := by
  obtain ⟨src, hsrc, hfin⟩ := build_compile_plan_plan_inv hp
  obtain ⟨hpe, hne⟩ := finalize_plan_plan_some hfin
  refine ⟨hne, ?_, ?_, ?_⟩
  · rw [hpe]
    exact sorted_unique_paths_sorted fs _
  · rw [hpe]
    exact sorted_unique_paths_nodup fs _
  · intro f hf htb
    rw [hpe] at hf ⊢
    simp only at hf ⊢
    obtain ⟨q, hq, hqne, hres⟩ := mem_sorted_unique_paths.mp hf
    rcases List.mem_append.mp hq with hq1 | hq2
    · exfalso
      obtain ⟨hqsrc, hqnot⟩ := List.mem_filter.mp hq1
      have hfix : fs.resolve q = q := resolve_fixed_of_mem hwf hsrc hqsrc
      rw [hfix] at hres
      subst hres
      simp only [decide_eq_true_eq] at hqnot
      rw [htb] at hqnot
      exact hqnot rfl
    · rcases htb0 : resolve_selected_tb tbf
          (discover_project_files fs (effective_folder config f0)
            (effective_mode_arg config m0)) with _ | t
      · rw [htb0] at hq2; simp at hq2
      · rw [htb0] at hq2
        simp only [Option.toList_some, List.mem_singleton] at hq2
        subst hq2
        obtain ⟨r, hr⟩ := selected_tb_resolved htb0
        have hfix : fs.resolve q = q := by rw [hr]; exact hwf.resolve_idem r
        rw [hfix] at hres
        subst hres
        rfl

/-- Witness for C1 at a concrete successful invocation. -/
theorem C1_compile_files_invariants_witness :
    ((build_compile_plan fsGeneric cfgEn (some "/p") (some "auto") none false).success = true ∧
      (build_compile_plan fsGeneric cfgEn (some "/p") (some "auto") none false).plan =
        some ⟨"/p", "generic", some "/p/main_tb.v", ["/p/a.v", "/p/main_tb.v"],
          "/t/iverilog", "/t/gtkwave"⟩) ∧
    (["/p/a.v", "/p/main_tb.v"] ≠ ([] : List String) ∧
      (List.Sorted (fun a b => strLe a b = true) ["/p/a.v", "/p/main_tb.v"]) ∧
      (["/p/a.v", "/p/main_tb.v"] : List String).Nodup ∧
      ∀ f ∈ ["/p/a.v", "/p/main_tb.v"], strEndsWith (pathName f) "_tb.v" = true →
        (some "/p/main_tb.v" : Option String) = some f) :=
  ⟨⟨by decide, by decide⟩,
   @C1_compile_files_invariants fsGeneric cfgEn (some "/p") (some "auto") none false
     ⟨"/p", "generic", some "/p/main_tb.v", ["/p/a.v", "/p/main_tb.v"],
       "/t/iverilog", "/t/gtkwave"⟩
     fsGeneric_wf (by decide) (by decide)⟩

/-- C2: in icestudio mode, when scope narrowing resolves to the whole
project folder while more than one subproject directory exists under
the build subdirectory, `build_compile_plan` fails with the
disambiguation error (which differs from the no-sources error);
otherwise the recursively collected non-testbench sources under the
narrowed scope replace the discovery source set exactly when that
collection is non-empty, the unscoped set being kept when it is empty. -/
theorem C2_icestudio_scope_narrowing {fs : FS} {config : Config} {f0 m0 tbf : Option String}
    {rt : Bool} (folder : String) (d : Discovery) (tb : Option String) (scope : String)
    (pd : List String) (scopeSrc : List String)
    (hfold : folder = effective_folder config f0)
    (hd : d = discover_project_files fs folder (effective_mode_arg config m0))
    (htb : tb = resolve_selected_tb tbf d)
    (hscope : scope = guess_icestudio_scope fs (fs.resolve folder) tb)
    (hpd : pd = ice_project_dirs fs (joinPath (fs.resolve folder) ICE_BUILD_DIR))
    (hss : scopeSrc = ((fs.rglob scope ".v").filter fun p =>
      ¬ strEndsWith (pathName p) "_tb.v").map fs.resolve)
    (hfolder1 : folder ≠ "")
    (hfolder2 : fs.isDir folder = true)
    (htool1 : rt = true → strTrim config.iverilog_path ≠ "" ∧
      fs.isFile (strTrim config.iverilog_path) = true)
    (htool2 : rt = true → strTrim config.gtkwave_path ≠ "" ∧
      fs.isFile (strTrim config.gtkwave_path) = true)
    (hsrc : d.source_files ≠ [])
    (hice : d.effective_mode = "icestudio") :
    ((scope = fs.resolve folder ∧ pd.length > 1) →
      build_compile_plan fs config f0 m0 tbf rt =
        ⟨false, [popupError "msg_multiple_icestudio" (normalize_lang config.language)],
          none⟩ ∧
      popupError "msg_multiple_icestudio" (normalize_lang config.language) ≠
        popupError "msg_no_sources" (normalize_lang config.language)) ∧
    (¬ (scope = fs.resolve folder ∧ pd.length > 1) → scopeSrc ≠ [] →
      build_compile_plan fs config f0 m0 tbf rt =
        finalize_plan fs (normalize_lang config.language) folder d.effective_mode tb
          (sorted_unique_paths fs scopeSrc)
          (strTrim config.iverilog_path) (strTrim config.gtkwave_path)) ∧
    (¬ (scope = fs.resolve folder ∧ pd.length > 1) → scopeSrc = [] →
      build_compile_plan fs config f0 m0 tbf rt =
        finalize_plan fs (normalize_lang config.language) folder d.effective_mode tb
          d.source_files
          (strTrim config.iverilog_path) (strTrim config.gtkwave_path)) := by
  subst hfold hd htb hscope hpd hss
  have hbuild := @build_passes_checks fs config f0 m0 tbf rt hfolder1 hfolder2 htool1 htool2
  rw [hbuild, plan_from_discovery_icestudio hsrc hice]
  refine ⟨?_, ?_, ?_⟩
  · rintro ⟨h1, h2⟩
    rw [if_pos (by simp [h1, h2])]
    exact ⟨rfl, popup_multi_ne_no_sources (normalize_lang config.language)⟩
  · intro hnot hne
    rw [if_neg]
    · rw [icestudio_effective_sources_of_ne hne]
    · simp only [Bool.and_eq_true, beq_iff_eq, decide_eq_true_eq]
      exact fun hcon => hnot ⟨hcon.1, hcon.2⟩
  · intro hnot hemp
    rw [if_neg]
    · rw [icestudio_effective_sources_of_nil hemp]
    · simp only [Bool.and_eq_true, beq_iff_eq, decide_eq_true_eq]
      exact fun hcon => hnot ⟨hcon.1, hcon.2⟩

/-- Witness for C2: a project folder whose build subdirectory contains
two subproject directories and no root sources, in auto mode, fails
with the ambiguous-subproject error and not the no-sources error. -/
theorem C2_icestudio_scope_narrowing_witness :
    (guess_icestudio_scope fsIceMulti (fsIceMulti.resolve "/p")
        (resolve_selected_tb none
          (discover_project_files fsIceMulti "/p" (effective_mode_arg cfgEn (some "auto")))) =
      fsIceMulti.resolve "/p" ∧
      (ice_project_dirs fsIceMulti
        (joinPath (fsIceMulti.resolve "/p") ICE_BUILD_DIR)).length > 1) ∧
    (build_compile_plan fsIceMulti cfgEn (some "/p") (some "auto") none false =
      ⟨false, [popupError "msg_multiple_icestudio" (normalize_lang cfgEn.language)], none⟩ ∧
    popupError "msg_multiple_icestudio" (normalize_lang cfgEn.language) ≠
      popupError "msg_no_sources" (normalize_lang cfgEn.language)) := by
  refine ⟨⟨by decide, by decide⟩, ?_⟩
  have h := @C2_icestudio_scope_narrowing fsIceMulti cfgEn (some "/p") (some "auto") none false
    "/p"
    (discover_project_files fsIceMulti "/p" (effective_mode_arg cfgEn (some "auto")))
    (resolve_selected_tb none
      (discover_project_files fsIceMulti "/p" (effective_mode_arg cfgEn (some "auto"))))
    (guess_icestudio_scope fsIceMulti (fsIceMulti.resolve "/p")
      (resolve_selected_tb none
        (discover_project_files fsIceMulti "/p" (effective_mode_arg cfgEn (some "auto")))))
    (ice_project_dirs fsIceMulti (joinPath (fsIceMulti.resolve "/p") ICE_BUILD_DIR))
    (((fsIceMulti.rglob
        (guess_icestudio_scope fsIceMulti (fsIceMulti.resolve "/p")
          (resolve_selected_tb none
            (discover_project_files fsIceMulti "/p"
              (effective_mode_arg cfgEn (some "auto"))))) ".v").filter fun p =>
      ¬ strEndsWith (pathName p) "_tb.v").map fsIceMulti.resolve)
    (by decide) rfl rfl rfl rfl rfl (by decide) (by decide)
    (by simp) (by simp) (by decide) (by decide)
  exact h.1 ⟨by decide, by decide⟩

/-- C3: when the compiler subprocess exits non-zero, `run_simulation`
returns failure with exactly one error-level message, that message
carries the compiler's stderr verbatim in its auxiliary data, the
simulator is never invoked, and no later pipeline stage executes. -/
theorem C3_compile_failure_stops_pipeline {env : Env} {st : ManagerState}
    {screen : ScreenSize} {f0 m0 tbf : Option String}
    (hs : (build_compile_plan env.fs env.config f0 m0 tbf true).success = true)
    (hrc : env.compile_result.returncode ≠ 0) :
    (run_simulation env st screen f0 m0 tbf).success = false ∧
    (∃ logm cmd, logm.type = "log" ∧
      (run_simulation env st screen f0 m0 tbf).messages =
        [logm,
         create_message .error
           (tr "msg_compile_error" (normalize_lang env.config.language)
             [("stderr", env.compile_result.stderr)])
           ["popup"] [("stage", "compile"), ("stderr", env.compile_result.stderr)]] ∧
      (run_simulation env st screen f0 m0 tbf).actions = [RunAction.compile_call cmd]) ∧
    ((run_simulation env st screen f0 m0 tbf).messages.filter is_error).length = 1 ∧
    (∀ cmd, RunAction.simulate_call cmd ∉ (run_simulation env st screen f0 m0 tbf).actions) ∧
    (∀ pth, RunAction.gtkw_write pth ∉ (run_simulation env st screen f0 m0 tbf).actions) ∧
    (∀ cmd, RunAction.viewer_launch cmd ∉ (run_simulation env st screen f0 m0 tbf).actions) := by
  obtain ⟨p, hp⟩ := build_success_iff_plan.mp hs
  have hmsg := build_success_messages_nil hs
  simp only [run_simulation, hp, hmsg, List.nil_append]
  rw [if_pos hrc]
  refine ⟨rfl, ⟨_, _, rfl, rfl, rfl⟩, ?_, ?_, ?_, ?_⟩
  · simp [is_error, create_message, MessageType.value]
  · intro cmd; simp
  · intro pth; simp
  · intro cmd; simp

/-- Witness for C3 at a concrete environment whose compiler exits with
code 2 and stderr `foo.v:10: syntax error`. -/
theorem C3_compile_failure_stops_pipeline_witness :
    ((build_compile_plan envCompileFail.fs envCompileFail.config (some "/p") (some "auto")
        none true).success = true ∧
      envCompileFail.compile_result.returncode ≠ 0) ∧
    (run_simulation envCompileFail ⟨none⟩ ⟨1920, 1080⟩ (some "/p") (some "auto")
        none).success = false ∧
    ((run_simulation envCompileFail ⟨none⟩ ⟨1920, 1080⟩ (some "/p") (some "auto")
        none).messages.filter is_error).length = 1 ∧
    ∀ cmd, RunAction.simulate_call cmd ∉
      (run_simulation envCompileFail ⟨none⟩ ⟨1920, 1080⟩ (some "/p") (some "auto")
        none).actions := by
  have h := @C3_compile_failure_stops_pipeline envCompileFail ⟨none⟩ ⟨1920, 1080⟩
    (some "/p") (some "auto") none (by decide) (by decide)
  exact ⟨⟨by decide, by decide⟩, h.1, h.2.2.1, h.2.2.2.1⟩

theorem foldl_max_mem (xs : List (String × Int)) (a : String × Int) :
    xs.foldl (fun best y => if y.2 > best.2 then y else best) a = a ∨
    xs.foldl (fun best y => if y.2 > best.2 then y else best) a ∈ xs := by
  induction xs generalizing a with
  | nil => left; rfl
  | cons x xs ih =>
    simp only [List.foldl_cons]
    rcases ih (if x.2 > a.2 then x else a) with h | h
    · rw [h]
      by_cases hc : x.2 > a.2
      · right; rw [if_pos hc]; exact List.mem_cons_self x xs
      · left; rw [if_neg hc]
    · right; exact List.mem_cons_of_mem x h

theorem foldl_max_ge (xs : List (String × Int)) (a : String × Int) :
    a.2 ≤ (xs.foldl (fun best y => if y.2 > best.2 then y else best) a).2 ∧
    ∀ y ∈ xs, y.2 ≤ (xs.foldl (fun best y => if y.2 > best.2 then y else best) a).2 := by
  induction xs generalizing a with
  | nil => exact ⟨le_refl _, by simp⟩
  | cons x xs ih =>
    simp only [List.foldl_cons]
    obtain ⟨h1, h2⟩ := ih (if x.2 > a.2 then x else a)
    have hstep : a.2 ≤ (if x.2 > a.2 then x else a).2 := by
      by_cases hc : x.2 > a.2
      · rw [if_pos hc]; exact le_of_lt hc
      · rw [if_neg hc]
    have hx : x.2 ≤ (if x.2 > a.2 then x else a).2 := by
      by_cases hc : x.2 > a.2
      · rw [if_pos hc]
      · rw [if_neg hc]; exact le_of_not_lt hc
    refine ⟨le_trans hstep h1, ?_⟩
    intro y hy
    rcases List.mem_cons.mp hy with rfl | hy
    · exact le_trans hx h1
    · exact h2 y hy

theorem maxByMtime_spec {l : List (String × Int)} {x : String × Int}
    (h : maxByMtime l = some x) : x ∈ l ∧ ∀ y ∈ l, y.2 ≤ x.2 := by
  cases l with
  | nil => simp [maxByMtime] at h
  | cons a as =>
    simp only [maxByMtime, Option.some_inj] at h
    subst h
    constructor
    · rcases foldl_max_mem as a with h | h
      · rw [h]; exact List.mem_cons_self a as
      · exact List.mem_cons_of_mem a h
    · intro y hy
      obtain ⟨h1, h2⟩ := foldl_max_ge as a
      rcases List.mem_cons.mp hy with rfl | hy
      · exact h1
      · exact h2 y hy

theorem maxByMtime_nil_iff {l : List (String × Int)} : maxByMtime l = none ↔ l = [] := by
  cases l <;> simp [maxByMtime]

theorem mem_glob_entry {fs : FS} {dir suffix p : String} (h : p ∈ fs.glob dir suffix) :
    ∃ e ∈ fs.entries, e.path = p := by
  simp only [FS.glob, List.mem_map] at h
  obtain ⟨e, he, rfl⟩ := h
  exact ⟨e, List.mem_of_mem_filter he, rfl⟩

theorem dictUpsert_keys (P : String → Prop) {d : List (String × Int)} {k : String} {v : Int}
    (hd : ∀ kv ∈ d, P kv.1) (hk : P k) :
    ∀ kv ∈ dictUpsert d k v, P kv.1 := by
  intro kv hkv
  unfold dictUpsert at hkv
  split at hkv
  · obtain ⟨kv0, hkv0, heq⟩ := List.mem_map.mp hkv
    by_cases hb : kv0.1 == k
    · rw [if_pos hb] at heq
      rw [← heq]
      exact hk
    · rw [if_neg hb] at heq
      rw [← heq]
      exact hd kv0 hkv0
  · rcases List.mem_append.mp hkv with h | h
    · exact hd kv h
    · simp only [List.mem_singleton] at h
      rw [h]
      exact hk

theorem vcd_snapshot_keys {fs : FS} {folder : String} :
    ∀ kv ∈ vcd_snapshot fs folder, ∃ p ∈ fs.glob folder ".vcd", kv.1 = fs.resolve p := by
  have hgen : ∀ (l : List String) (d0 : List (String × Int)),
      (∀ kv ∈ d0, ∃ p ∈ fs.glob folder ".vcd", kv.1 = fs.resolve p) →
      (∀ p ∈ l, p ∈ fs.glob folder ".vcd") →
      ∀ kv ∈ l.foldl (fun d p => dictUpsert d (fs.resolve p) (fs.mtimeOf p)) d0,
        ∃ p ∈ fs.glob folder ".vcd", kv.1 = fs.resolve p := by
    intro l
    induction l with
    | nil => exact fun d0 hd0 _ kv hkv => hd0 kv hkv
    | cons x xs ih =>
      intro d0 hd0 hl kv hkv
      simp only [List.foldl_cons] at hkv
      refine ih _ ?_ (fun p hp => hl p (List.mem_cons_of_mem x hp)) kv hkv
      exact dictUpsert_keys (fun k => ∃ p ∈ fs.glob folder ".vcd", k = fs.resolve p)
        hd0 ⟨x, hl x (List.mem_cons_self x xs), rfl⟩
  exact hgen _ [] (by simp) (fun p hp => hp)

theorem pathExists_of_snapshot_key {fs : FS} {folder : String} (hwf : fs.WF)
    {kv : String × Int} (hkv : kv ∈ vcd_snapshot fs folder) :
    fs.pathExists kv.1 = true := by
  obtain ⟨p, hp, hres⟩ := vcd_snapshot_keys kv hkv
  obtain ⟨e, he, hep⟩ := mem_glob_entry hp
  simp only [FS.pathExists, List.any_eq_true]
  refine ⟨e, he, ?_⟩
  rw [hres, hwf.resolve_idem, hep]
  exact beq_self_eq_true _

theorem find_recent_vcd_some_exists {fs : FS} {folder v : String}
    {snap : List (String × Int)} (hwf : fs.WF)
    (h : find_recent_vcd fs folder snap = some v) : fs.pathExists v = true := by
  simp only [find_recent_vcd] at h
  split at h
  · next pm hpm =>
    cases h
    have hmem := (maxByMtime_spec hpm).1
    exact pathExists_of_snapshot_key hwf (List.mem_of_mem_filter hmem)
  · obtain ⟨pm, hpm, hv⟩ := Option.map_eq_some'.mp h
    subst hv
    exact pathExists_of_snapshot_key hwf (maxByMtime_spec hpm).1

/-- C4: `_find_recent_vcd` returns the most-recently-modified dump file
among those that are new or strictly newer than the snapshot if any,
else the most-recently-modified of all existing dump files if any,
else none; and the run pipeline (after successful compile and
simulate) fails exactly when it returns none, then carrying the
no-artifact error as its final message. -/
theorem C4_vcd_artifact_selection (fs : FS) (folder : String)
    (snap : List (String × Int)) {env : Env} {st : ManagerState} {screen : ScreenSize}
    {f0 m0 tbf : Option String} {p : CompilePlan}
    (hwf : env.fsAfterSim.WF)
    (hp : (build_compile_plan env.fs env.config f0 m0 tbf true).plan = some p)
    (hc : env.compile_result.returncode = 0)
    (hsim : env.sim_result.returncode = 0) :
    (new_or_updated (vcd_snapshot fs folder) snap ≠ [] →
      ∃ pm ∈ new_or_updated (vcd_snapshot fs folder) snap,
        find_recent_vcd fs folder snap = some pm.1 ∧
        ∀ qm ∈ new_or_updated (vcd_snapshot fs folder) snap, qm.2 ≤ pm.2) ∧
    (new_or_updated (vcd_snapshot fs folder) snap = [] → vcd_snapshot fs folder ≠ [] →
      ∃ pm ∈ vcd_snapshot fs folder,
        find_recent_vcd fs folder snap = some pm.1 ∧
        ∀ qm ∈ vcd_snapshot fs folder, qm.2 ≤ pm.2) ∧
    (vcd_snapshot fs folder = [] → find_recent_vcd fs folder snap = none) ∧
    ((run_simulation env st screen f0 m0 tbf).success = false ↔
      find_recent_vcd env.fsAfterSim p.folder
        (vcd_snapshot env.fsAfterCompile p.folder) = none) ∧
    (find_recent_vcd env.fsAfterSim p.folder
        (vcd_snapshot env.fsAfterCompile p.folder) = none →
      (run_simulation env st screen f0 m0 tbf).messages.getLast? =
        some (popupError "msg_no_vcd" (normalize_lang env.config.language))) := by
  have hs : (build_compile_plan env.fs env.config f0 m0 tbf true).success = true :=
    build_success_iff_plan.mpr ⟨p, hp⟩
  have hmsg := build_success_messages_nil hs
  refine ⟨?_, ?_, ?_, ?_, ?_⟩
  · intro hne
    cases hmb : maxByMtime (new_or_updated (vcd_snapshot fs folder) snap) with
    | none => exact absurd (maxByMtime_nil_iff.mp hmb) hne
    | some pm =>
      obtain ⟨hmem, hge⟩ := maxByMtime_spec hmb
      refine ⟨pm, hmem, ?_, hge⟩
      simp [find_recent_vcd, hmb]
  · intro hnil hcur
    cases hmb : maxByMtime (vcd_snapshot fs folder) with
    | none => exact absurd (maxByMtime_nil_iff.mp hmb) hcur
    | some pm =>
      have hnu : maxByMtime (new_or_updated (vcd_snapshot fs folder) snap) = none := by
        rw [hnil]; rfl
      obtain ⟨hmem, hge⟩ := maxByMtime_spec hmb
      refine ⟨pm, hmem, ?_, hge⟩
      simp [find_recent_vcd, hnu, hmb]
  · intro hcur
    simp [find_recent_vcd, hcur, new_or_updated, maxByMtime]
  · simp only [run_simulation, hp, hmsg, List.nil_append]
    rw [if_neg (by simp [hc]), if_neg (by simp [hsim])]
    cases hfind : find_recent_vcd env.fsAfterSim p.folder
        (vcd_snapshot env.fsAfterCompile p.folder) with
    | none => simp
    | some v =>
      have hex := find_recent_vcd_some_exists hwf hfind
      simp only [create_gtkw_config, hex]
      simp
  · intro hfind
    simp only [run_simulation, hp, hmsg, List.nil_append]
    rw [if_neg (by simp [hc]), if_neg (by simp [hsim])]
    rw [hfind]
    simp [List.getLast?_concat]

/-- Witness for C4 at a concrete environment whose simulation produces
a fresh dump file. -/
theorem C4_vcd_artifact_selection_witness :
    (envRunOk.fsAfterSim.WF ∧
      (build_compile_plan envRunOk.fs envRunOk.config (some "/p") (some "auto") none
          true).plan =
        some ⟨"/p", "generic", some "/p/main_tb.v", ["/p/a.v", "/p/main_tb.v"],
          "/t/iverilog", "/t/gtkwave"⟩ ∧
      envRunOk.compile_result.returncode = 0 ∧
      envRunOk.sim_result.returncode = 0) ∧
    ((run_simulation envRunOk ⟨none⟩ ⟨1920, 1080⟩ (some "/p") (some "auto") none).success =
        false ↔
      find_recent_vcd envRunOk.fsAfterSim "/p" (vcd_snapshot envRunOk.fsAfterCompile "/p") =
        none) := by
  have h := @C4_vcd_artifact_selection fsVcd "/p" [] envRunOk ⟨none⟩ ⟨1920, 1080⟩
    (some "/p") (some "auto") none
    ⟨"/p", "generic", some "/p/main_tb.v", ["/p/a.v", "/p/main_tb.v"],
      "/t/iverilog", "/t/gtkwave"⟩
    fsVcd_wf (by decide) (by decide) (by decide)
  exact ⟨⟨fsVcd_wf, by decide, by decide, by decide⟩, h.2.2.2.1⟩

theorem mem_sorted_unique_paths_map {fs : FS} (hwf : fs.WF) {l : List String} {a : String} :
    a ∈ sorted_unique_paths fs (l.map fs.resolve) ↔ ∃ p ∈ l, fs.resolve p = a := by
  rw [mem_sorted_unique_paths]
  constructor
  · rintro ⟨q, hq, -, rfl⟩
    obtain ⟨p, hp, rfl⟩ := List.mem_map.mp hq
    exact ⟨p, hp, (hwf.resolve_idem p).symm⟩
  · rintro ⟨p, hp, rfl⟩
    exact ⟨fs.resolve p, List.mem_map_of_mem _ hp, hwf.resolve_ne_empty p,
      hwf.resolve_idem p⟩

theorem mem_sorted_unique_paths_sortStrings_map {fs : FS} (hwf : fs.WF) {l : List String}
    {a : String} :
    a ∈ sorted_unique_paths fs (sortStrings (l.map fs.resolve)) ↔
      ∃ p ∈ l, fs.resolve p = a := by
  rw [mem_sorted_unique_paths]
  constructor
  · rintro ⟨q, hq, -, rfl⟩
    obtain ⟨p, hp, rfl⟩ := List.mem_map.mp (mem_sortStrings.mp hq)
    exact ⟨p, hp, (hwf.resolve_idem p).symm⟩
  · rintro ⟨p, hp, rfl⟩
    exact ⟨fs.resolve p, mem_sortStrings.mpr (List.mem_map_of_mem _ hp),
      hwf.resolve_ne_empty p, hwf.resolve_idem p⟩

theorem discover_source_candidates_generic (fs : FS) (base : String) :
    discover_source_candidates fs base "generic" = fs.glob base ".v" := rfl

theorem discover_source_candidates_icestudio (fs : FS) (base : String) :
    discover_source_candidates fs base "icestudio" =
      fs.glob base ".v" ++
        (if fs.isDir (joinPath base ICE_BUILD_DIR) then
          fs.rglob (joinPath base ICE_BUILD_DIR) ".v" else []) := rfl

theorem discover_tb_full_generic (fs : FS) (base : String) :
    discover_tb_full fs base "generic" =
      sortStrings ((fs.glob base "_tb.v").map fs.resolve) := rfl

theorem discover_tb_full_icestudio (fs : FS) (base : String) :
    discover_tb_full fs base "icestudio" =
      sortStrings ((fs.glob base "_tb.v" ++
        (if fs.isDir (joinPath base ICE_BUILD_DIR) then
          fs.rglob (joinPath base ICE_BUILD_DIR) "_tb.v" else [])).map fs.resolve) := rfl

theorem strLe_refl (a : String) : strLe a a = true := by
  show charListLe a.data a.data = true
  induction a.data with
  | nil => rfl
  | cons c cs ih => simp [charListLe, ih]

theorem head?_eq_of_sorted_mem_iff {l l' : List String}
    (hl : l.Sorted fun a b => strLe a b = true)
    (hl' : l'.Sorted fun a b => strLe a b = true)
    (hmem : ∀ x, x ∈ l ↔ x ∈ l') : l.head? = l'.head? := by
  cases l with
  | nil =>
    cases l' with
    | nil => rfl
    | cons b bs => exact absurd ((hmem b).mpr (List.mem_cons_self b bs)) (by simp)
  | cons a as =>
    cases l' with
    | nil => exact absurd ((hmem a).mp (List.mem_cons_self a as)) (by simp)
    | cons b bs =>
      have hab : strLe a b = true := by
        rcases List.mem_cons.mp ((hmem b).mpr (List.mem_cons_self b bs)) with h | h
        · rw [h]; exact strLe_refl a
        · exact List.rel_of_sorted_cons hl b h
      have hba : strLe b a = true := by
        rcases List.mem_cons.mp ((hmem a).mp (List.mem_cons_self a as)) with h | h
        · rw [h]; exact strLe_refl b
        · exact List.rel_of_sorted_cons hl' a h
      have hableq : a = b := strLe_antisymm hab hba
      rw [hableq]
      rfl

theorem preferred_agrees {fs : FS} (hwf : fs.WF) (l : List String)
    (hres : resolvedList fs l) (hsort : l.Sorted fun a b => strLe a b = true) (m : String) :
    (if m ∈ l then some m else l.head?) =
      (if m ∈ sorted_unique_paths fs l then some m
       else (sorted_unique_paths fs l).head?) := by
  have hiff : ∀ x, x ∈ l ↔ x ∈ sorted_unique_paths fs l :=
    fun x => (mem_sorted_unique_paths_of_resolved hwf hres).symm
  by_cases hm : m ∈ l
  · rw [if_pos hm, if_pos ((hiff m).mp hm)]
  · rw [if_neg hm, if_neg (fun hc => hm ((hiff m).mpr hc))]
    exact head?_eq_of_sorted_mem_iff hsort (sorted_unique_paths_sorted fs l) hiff

/-- C6: `discover_project_files` resolves `auto` to icestudio exactly
when the conventional build subdirectory exists under the folder;
generic mode scans only the root while icestudio mode also recurses
into the build subdirectory; and both returned path lists are
canonicalized, deduplicated, and sorted. -/
theorem C6_discover_scan_and_canonicalization (fs : FS) (folder mode : String)
    (hwf : fs.WF) :
    ((discover_project_files fs folder "auto").effective_mode =
      if fs.isDir (joinPath (fs.resolve folder) ICE_BUILD_DIR) then "icestudio"
      else "generic") ∧
    ((discover_project_files fs folder mode).tb_files.Sorted
        (fun a b => strLe a b = true) ∧
      (discover_project_files fs folder mode).tb_files.Nodup ∧
      (discover_project_files fs folder mode).source_files.Sorted
        (fun a b => strLe a b = true) ∧
      (discover_project_files fs folder mode).source_files.Nodup ∧
      (∀ x ∈ (discover_project_files fs folder mode).tb_files, fs.resolve x = x) ∧
      (∀ x ∈ (discover_project_files fs folder mode).source_files, fs.resolve x = x)) ∧
    ((discover_project_files fs folder mode).effective_mode = "generic" →
      (∀ x, x ∈ (discover_project_files fs folder mode).source_files ↔
        ∃ p ∈ fs.glob (fs.resolve folder) ".v", fs.resolve p = x) ∧
      (∀ x, x ∈ (discover_project_files fs folder mode).tb_files ↔
        ∃ p ∈ fs.glob (fs.resolve folder) "_tb.v", fs.resolve p = x)) ∧
    ((discover_project_files fs folder mode).effective_mode = "icestudio" →
      (∀ x, x ∈ (discover_project_files fs folder mode).source_files ↔
        ∃ p ∈ fs.glob (fs.resolve folder) ".v" ++
          (if fs.isDir (joinPath (fs.resolve folder) ICE_BUILD_DIR) then
            fs.rglob (joinPath (fs.resolve folder) ICE_BUILD_DIR) ".v" else []),
          fs.resolve p = x) ∧
      (∀ x, x ∈ (discover_project_files fs folder mode).tb_files ↔
        ∃ p ∈ fs.glob (fs.resolve folder) "_tb.v" ++
          (if fs.isDir (joinPath (fs.resolve folder) ICE_BUILD_DIR) then
            fs.rglob (joinPath (fs.resolve folder) ICE_BUILD_DIR) "_tb.v" else []),
          fs.resolve p = x)) := by
  refine ⟨rfl, ⟨?_, ?_, ?_, ?_, ?_, ?_⟩, ?_, ?_⟩
  · exact sorted_unique_paths_sorted fs _
  · exact sorted_unique_paths_nodup fs _
  · exact sorted_unique_paths_sorted fs _
  · exact sorted_unique_paths_nodup fs _
  · exact fun x hx =>
      resolve_fixed_of_mem hwf (discovery_tb_files_resolvedList fs folder mode) hx
  · exact fun x hx =>
      resolve_fixed_of_mem hwf (discovery_source_files_resolvedList fs folder mode) hx
  · intro hg
    simp only [discover_project_files] at hg ⊢
    rw [hg, discover_source_candidates_generic, discover_tb_full_generic]
    constructor
    · intro x
      exact mem_sorted_unique_paths_map hwf
    · intro x
      exact mem_sorted_unique_paths_sortStrings_map hwf
  · intro hi
    simp only [discover_project_files] at hi ⊢
    rw [hi, discover_source_candidates_icestudio, discover_tb_full_icestudio]
    constructor
    · intro x
      exact mem_sorted_unique_paths_map hwf
    · intro x
      exact mem_sorted_unique_paths_sortStrings_map hwf

/-- Witness for C6 at the concrete generic-layout project. -/
theorem C6_discover_scan_and_canonicalization_witness :
    fsGeneric.WF ∧
    (discover_project_files fsGeneric "/p" "auto").effective_mode = "generic" ∧
    (discover_project_files fsGeneric "/p" "auto").source_files =
      ["/p/a.v", "/p/main_tb.v"] := by
  refine ⟨fsGeneric_wf, ?_, by decide⟩
  rw [(C6_discover_scan_and_canonicalization fsGeneric "/p" "auto" fsGeneric_wf).1]
  decide

/-- C7: `preferred_tb` is the conventional root-level `main_tb.v`
whenever it is among the discovered testbenches, else the
lexicographically-first discovered testbench, else none. -/
theorem C7_preferred_testbench (fs : FS) (folder mode : String) (hwf : fs.WF) :
    (discover_project_files fs folder mode).preferred_tb =
      (if fs.resolve (joinPath (fs.resolve folder) "main_tb.v") ∈
          (discover_project_files fs folder mode).tb_files then
        some (fs.resolve (joinPath (fs.resolve folder) "main_tb.v"))
      else (discover_project_files fs folder mode).tb_files.head?) := by
  simp only [discover_project_files]
  exact preferred_agrees hwf _ (resolvedList_discover_tb_full fs _ _)
    (sorted_discover_tb_full fs _ _) _

/-- Witness for C7 at the concrete generic-layout project, where the
conventional testbench is present and selected. -/
theorem C7_preferred_testbench_witness :
    (discover_project_files fsGeneric "/p" "auto").preferred_tb =
      (if fsGeneric.resolve (joinPath (fsGeneric.resolve "/p") "main_tb.v") ∈
          (discover_project_files fsGeneric "/p" "auto").tb_files then
        some (fsGeneric.resolve (joinPath (fsGeneric.resolve "/p") "main_tb.v"))
      else (discover_project_files fsGeneric "/p" "auto").tb_files.head?) ∧
    (discover_project_files fsGeneric "/p" "auto").preferred_tb = some "/p/main_tb.v" :=
  ⟨C7_preferred_testbench fsGeneric "/p" "auto" fsGeneric_wf, by decide⟩

theorem isEmpty_iff_nil {α : Type} {l : List α} : l.isEmpty = true ↔ l = [] := by
  cases l <;> simp

theorem select_signals_spec (regs wires alls : List String) (tb_top : Option String) :
    (¬ ((scoped_selection regs wires tb_top).1 = [] ∧
        (scoped_selection regs wires tb_top).2 = []) →
      (select_signals regs wires alls tb_top).1 = (scoped_selection regs wires tb_top).1 ∧
      (select_signals regs wires alls tb_top).2 = (scoped_selection regs wires tb_top).2) ∧
    (((scoped_selection regs wires tb_top).1 = [] ∧
        (scoped_selection regs wires tb_top).2 = []) →
      ¬ (regs = [] ∧ wires = []) →
      (select_signals regs wires alls tb_top).1 = regs ∧
      (select_signals regs wires alls tb_top).2 = wires) ∧
    (((scoped_selection regs wires tb_top).1 = [] ∧
        (scoped_selection regs wires tb_top).2 = []) →
      (regs = [] ∧ wires = []) →
      (select_signals regs wires alls tb_top).1 = [] ∧
      (select_signals regs wires alls tb_top).2 = alls) := by
  refine ⟨?_, ?_, ?_⟩
  · intro hnot
    have hc : ¬ ((scoped_selection regs wires tb_top).1.isEmpty = true ∧
        (scoped_selection regs wires tb_top).2.isEmpty = true) :=
      fun hc => hnot ⟨isEmpty_iff_nil.mp hc.1, isEmpty_iff_nil.mp hc.2⟩
    simp only [select_signals, if_neg hc]
    exact ⟨trivial, trivial⟩
  · intro hsc hcl
    have hc1 : (scoped_selection regs wires tb_top).1.isEmpty = true ∧
        (scoped_selection regs wires tb_top).2.isEmpty = true :=
      ⟨isEmpty_iff_nil.mpr hsc.1, isEmpty_iff_nil.mpr hsc.2⟩
    have hc2 : ¬ (((regs, wires) : List String × List String).1.isEmpty = true ∧
        ((regs, wires) : List String × List String).2.isEmpty = true) :=
      fun hc => hcl ⟨isEmpty_iff_nil.mp hc.1, isEmpty_iff_nil.mp hc.2⟩
    simp only [select_signals, if_pos hc1, if_neg hc2]
    exact ⟨trivial, trivial⟩
  · intro hsc hcl
    have hc1 : (scoped_selection regs wires tb_top).1.isEmpty = true ∧
        (scoped_selection regs wires tb_top).2.isEmpty = true :=
      ⟨isEmpty_iff_nil.mpr hsc.1, isEmpty_iff_nil.mpr hsc.2⟩
    have hc2 : (((regs, wires) : List String × List String).1.isEmpty = true ∧
        ((regs, wires) : List String × List String).2.isEmpty = true) :=
      ⟨isEmpty_iff_nil.mpr hcl.1, isEmpty_iff_nil.mpr hcl.2⟩
    simp only [select_signals, if_pos hc1, if_pos hc2]
    exact ⟨hcl.1, trivial⟩

/-- C8: `create_gtkw_config` returns false without output when the
dump file does not exist; otherwise it writes the dump-filename line,
the window-dimensions line, then the selected state-holding signals
sorted, then the selected combinational signals sorted, choosing the
selection by the first non-empty of scoped, classified, and all
surviving signals. -/
theorem C8_gtkw_config_generation (fs : FS) (parse_vcd : String → List VcdSignal)
    (vcd_path gtkw_path : String) (screen_size : ScreenSize) (tb_top : Option String) :
    (fs.pathExists vcd_path = false →
      create_gtkw_config fs parse_vcd vcd_path gtkw_path screen_size tb_top =
        (false, none)) ∧
    (fs.pathExists vcd_path = true →
      ∃ selRegs selWires,
        create_gtkw_config fs parse_vcd vcd_path gtkw_path screen_size tb_top =
          (true, some
            (["[dumpfile] \"" ++ pathName vcd_path ++ "\"",
              "[size] " ++ toString screen_size.width ++ " " ++
                toString screen_size.height]
             ++ sortedSet selRegs ++ sortedSet selWires)) ∧
        (let scsel := scoped_selection (reg_signals (parse_vcd vcd_path))
          (wire_signals (parse_vcd vcd_path)) tb_top;
         (¬ (scsel.1 = [] ∧ scsel.2 = []) → (selRegs, selWires) = scsel) ∧
         ((scsel.1 = [] ∧ scsel.2 = []) →
           ¬ (reg_signals (parse_vcd vcd_path) = [] ∧
              wire_signals (parse_vcd vcd_path) = []) →
           (selRegs, selWires) =
             (reg_signals (parse_vcd vcd_path), wire_signals (parse_vcd vcd_path))) ∧
         ((scsel.1 = [] ∧ scsel.2 = []) →
           (reg_signals (parse_vcd vcd_path) = [] ∧
            wire_signals (parse_vcd vcd_path) = []) →
           (selRegs, selWires) = ([], all_signals (parse_vcd vcd_path))))) := by
  constructor
  · intro hex
    simp [create_gtkw_config, hex]
  · intro hex
    have hstep : create_gtkw_config fs parse_vcd vcd_path gtkw_path screen_size tb_top =
        (true, some
          (["[dumpfile] \"" ++ pathName vcd_path ++ "\"",
            "[size] " ++ toString screen_size.width ++ " " ++
              toString screen_size.height]
           ++ sortedSet (select_signals (reg_signals (parse_vcd vcd_path))
                (wire_signals (parse_vcd vcd_path)) (all_signals (parse_vcd vcd_path))
                tb_top).1
           ++ sortedSet (select_signals (reg_signals (parse_vcd vcd_path))
                (wire_signals (parse_vcd vcd_path)) (all_signals (parse_vcd vcd_path))
                tb_top).2)) := by
      simp [create_gtkw_config, hex]
    refine ⟨_, _, hstep, ?_, ?_, ?_⟩
    · intro hnot
      obtain ⟨h1, h2⟩ := (select_signals_spec (reg_signals (parse_vcd vcd_path))
        (wire_signals (parse_vcd vcd_path)) (all_signals (parse_vcd vcd_path)) tb_top).1 hnot
      rw [h1, h2]
    · intro hsc hcl
      obtain ⟨h1, h2⟩ := (select_signals_spec (reg_signals (parse_vcd vcd_path))
        (wire_signals (parse_vcd vcd_path)) (all_signals (parse_vcd vcd_path))
        tb_top).2.1 hsc hcl
      rw [h1, h2]
    · intro hsc hcl
      obtain ⟨h1, h2⟩ := (select_signals_spec (reg_signals (parse_vcd vcd_path))
        (wire_signals (parse_vcd vcd_path)) (all_signals (parse_vcd vcd_path))
        tb_top).2.2 hsc hcl
      rw [h1, h2]

/-- Witness for C8 at a concrete dump file and parse result. -/
theorem C8_gtkw_config_generation_witness :
    fsVcd.pathExists "/p/sim.vcd" = true ∧
    (∃ selRegs selWires,
      create_gtkw_config fsVcd parseDemo "/p/sim.vcd" "/p/simulation.gtkw" ⟨1920, 1080⟩
          (some "main_tb") =
        (true, some
          (["[dumpfile] \"" ++ pathName "/p/sim.vcd" ++ "\"",
            "[size] " ++ toString (1920 : Int) ++ " " ++ toString (1080 : Int)]
           ++ sortedSet selRegs ++ sortedSet selWires)) ∧
      (let scsel := scoped_selection (reg_signals (parseDemo "/p/sim.vcd"))
        (wire_signals (parseDemo "/p/sim.vcd")) (some "main_tb");
       (¬ (scsel.1 = [] ∧ scsel.2 = []) → (selRegs, selWires) = scsel) ∧
       ((scsel.1 = [] ∧ scsel.2 = []) →
         ¬ (reg_signals (parseDemo "/p/sim.vcd") = [] ∧
            wire_signals (parseDemo "/p/sim.vcd") = []) →
         (selRegs, selWires) =
           (reg_signals (parseDemo "/p/sim.vcd"), wire_signals (parseDemo "/p/sim.vcd"))) ∧
       ((scsel.1 = [] ∧ scsel.2 = []) →
         (reg_signals (parseDemo "/p/sim.vcd") = [] ∧
          wire_signals (parseDemo "/p/sim.vcd") = []) →
         (selRegs, selWires) = ([], all_signals (parseDemo "/p/sim.vcd"))))) ∧
    create_gtkw_config fsVcd parseDemo "/p/sim.vcd" "/p/simulation.gtkw" ⟨1920, 1080⟩
        (some "main_tb") =
      (true, some ["[dumpfile] \"sim.vcd\"", "[size] 1920 1080",
        "main_tb.clk", "main_tb.q"]) :=
  ⟨by decide,
   (C8_gtkw_config_generation fsVcd parseDemo "/p/sim.vcd" "/p/simulation.gtkw"
      ⟨1920, 1080⟩ (some "main_tb")).2 (by decide),
   by decide⟩

/-- C9: `close_gtkwave` with no viewer session ever started is a
no-op twice in a row: no action, `True` result, empty message list,
unchanged state, both times. -/
theorem C9_close_viewer_idempotent (env : CloseEnv) :
    close_gtkwave env ⟨none⟩ = ⟨⟨none⟩, true, [], []⟩ ∧
    close_gtkwave env (close_gtkwave env ⟨none⟩).finalState = ⟨⟨none⟩, true, [], []⟩ :=
  ⟨rfl, rfl⟩

end BenchSim
